import Mathlib

/-!
# Baikal PCIe glue driver (`drivers/ps4/ps4-bpcie.c`): interrupt fan-out and MSI masks

A shallow embedding of the interrupt side of the Baikal south-bridge glue driver:

* machine integers are natural numbers reduced modulo `2^32` (`u32`), with the
  signed reading `s32` where an instruction compares signed values;
* calls into the rest of the kernel (`handle_edge_irq`, `glue_write32`,
  `pci_alloc_irq_vectors`, ...) are recorded as events of a trace, in program order;
* the answers of the environment (the status word read back from the device, the
  IRQ-domain lookups, the value returned by the vector allocator) are inputs.
-/

namespace PS4

/-! ## Machine integers -/

/-- Truncation of a value to an unsigned 32-bit register or variable. -/
def u32 (x : Nat) : Nat := x % 4294967296

/-- Signed reading of the 32-bit pattern `x` (two's complement), as used by `jl`. -/
def s32 (x : Nat) : Int :=
  if u32 x < 2147483648 then (u32 x : Int) else (u32 x : Int) - 4294967296

/-- The C operator `~` on an `unsigned int`/`u32` operand. -/
def not32 (x : Nat) : Nat := 0xFFFFFFFF ^^^ u32 x

/-! ## Constants of `baikal.h` -/

/-- `enum baikal_func_id`: `BAIKAL_FUNC_ID_PCIE`. -/
def BAIKAL_FUNC_ID_PCIE : Nat := 4
/-- `enum baikal_func_id`: `BAIKAL_FUNC_ID_DMAC`. -/
def BAIKAL_FUNC_ID_DMAC : Nat := 5
/-- `enum baikal_func_id`: `BAIKAL_FUNC_ID_XHCI`. -/
def BAIKAL_FUNC_ID_XHCI : Nat := 7
/-- `enum baikal_func_id`: `BAIKAL_NUM_FUNCS`, the enumerator after the eight functions. -/
def BAIKAL_NUM_FUNCS : Nat := 8
/-- `enum bpcie_subfunc`: `BPCIE_NUM_SUBFUNCS`. -/
def BPCIE_NUM_SUBFUNCS : Nat := 32
/-- Register offset `BPCIE_ACK_WRITE`, relative to BAR2. -/
def BPCIE_ACK_WRITE : Nat := 0x110084
/-- Register offset `BPCIE_ACK_READ`, relative to BAR2. -/
def BPCIE_ACK_READ : Nat := 0x110088

/-- The table `subfuncs_per_func[BAIKAL_NUM_FUNCS]` of `ps4-bpcie.c`. -/
def subfuncs_per_func : List Nat := [2, 1, 1, 1, 31, 2, 3, 3]

/-! ## Hardware IRQ numbers -/

/-- `get_subfunc`: `return hwirq & 0x1f;`, converted to the `u8` return type. -/
def get_subfunc (hwirq : Nat) : Nat := (hwirq &&& 0x1f) % 256

/-- First line of `bpcie_handle_edge_irq`: `u32 func = (desc->irq_data.hwirq >> 5) & 7;`. -/
def hwirq_func (hwirq : Nat) : Nat := u32 ((hwirq >>> 5) &&& 7)

/-- Second line of `bpcie_handle_edge_irq`:
`u32 initial_hwirq = desc->irq_data.hwirq & ~0x1fLL;` The operand `~0x1fLL` is the
64-bit pattern `0xFFFFFFFFFFFFFFE0`; the result is stored in a `u32`. -/
def hwirq_initial (hwirq : Nat) : Nat := u32 (hwirq &&& 0xFFFFFFFFFFFFFFE0)

/-! ## Interrupt descriptors and the trace of a handler run -/

/-- The fields of `struct irq_desc` that the driver reads: `irq_data.irq` and
`irq_data.hwirq`. -/
structure IrqDesc where
  irq : Nat
  hwirq : Nat
  deriving DecidableEq

/-- The two lookups of the dispatch loop, for the domain `desc->irq_data.domain`:
`irq_find_mapping(domain, hwirq)` gives a Linux IRQ number (0 when the hardware
number has no mapping) and `irq_to_desc(virq)` gives the descriptor of that number,
or `NULL`. -/
structure IrqDomain where
  irq_find_mapping : Nat → Nat
  irq_to_desc : Nat → Option IrqDesc

/-- Calls that `bpcie_handle_edge_irq` makes, in program order. -/
inductive Event where
  | raw_spin_lock
  | raw_spin_unlock
  | glue_write32 (offset value : Nat)
  | glue_read32 (offset : Nat)
  | irq_find_mapping (hwirq : Nat)
  | irq_to_desc (virq : Nat)
  | handle_edge_irq (desc : IrqDesc)
  deriving DecidableEq

/-- The three locals set by the `if`/`else if` chain of `bpcie_handle_edge_irq`. -/
structure FanoutCfg where
  vector_to_write : Nat
  mask : Nat
  shift : Nat
  deriving DecidableEq

/-- The chain `if (func == 4) ... else if (func == 7) ... else if (func == 5) ... else`
of `bpcie_handle_edge_irq`; `none` is the final `else`, which calls `handle_edge_irq`
on the descriptor and returns. `mask = -1` is stored in an `unsigned int`. -/
def fanout_cfg (func : Nat) : Option FanoutCfg :=
  if func = 4 then some ⟨2, u32 0xFFFFFFFF, 0⟩
  else if func = 7 then some ⟨3, 7, 0x10⟩
  else if func = 5 then some ⟨3, 3, 0⟩
  else none

/-- The statement `unsigned int subfunc_mask = mask & ~(vector_read >> shift);`. -/
def subfunc_mask (mask shift vector_read : Nat) : Nat :=
  mask &&& not32 (vector_read >>> shift)

/-- Body of the loop `for (i = 0; i < 32; i++)` for one value of `i`: when
`subfunc_mask & (1 << i)` is non-zero, look up `initial_hwirq + i` (an `unsigned int`
sum), then the descriptor, and call `handle_edge_irq` on it when it is not `NULL`. -/
def fanout_body (dom : IrqDomain) (initial_hwirq pending i : Nat) : List Event :=
  if pending &&& u32 (1 <<< i) ≠ 0 then
    let hw := u32 (initial_hwirq + i)
    let virq := dom.irq_find_mapping hw
    match dom.irq_to_desc virq with
    | some new_desc =>
        [Event.irq_find_mapping hw, Event.irq_to_desc virq, Event.handle_edge_irq new_desc]
    | none => [Event.irq_find_mapping hw, Event.irq_to_desc virq]
  else []

/-- The loop `for (i = 0; i < 32; i++)`, started at `i` with `todo` iterations left
(the loop of the source is `fanout_loop dom initial_hwirq pending 32 0`). -/
def fanout_loop (dom : IrqDomain) (initial_hwirq pending : Nat) : Nat → Nat → List Event
  | 0, _ => []
  | todo + 1, i =>
      fanout_body dom initial_hwirq pending i ++ fanout_loop dom initial_hwirq pending todo (i + 1)

/-- One run of the handler: the value of the local `subfunc_mask` (`none` when the
run takes the final `else` and never computes it) and the calls made. -/
structure EdgeIrqRun where
  pending : Option Nat
  trace : List Event

/-- The handler `bpcie_handle_edge_irq(desc)`; `vector_read` is the word that the
device returns for the read of `BPCIE_ACK_READ`, truncated to `u32` as `glue_read32`
does. -/
def bpcie_handle_edge_irq (dom : IrqDomain) (desc : IrqDesc) (vector_read : Nat) :
    EdgeIrqRun :=
  let func := hwirq_func desc.hwirq
  let initial_hwirq := hwirq_initial desc.hwirq
  match fanout_cfg func with
  | none => { pending := none, trace := [Event.handle_edge_irq desc] }
  | some cfg =>
      let vector_read := u32 vector_read
      let pending := subfunc_mask cfg.mask cfg.shift vector_read
      { pending := some pending,
        trace :=
          [Event.raw_spin_lock,
           Event.glue_write32 BPCIE_ACK_WRITE cfg.vector_to_write,
           Event.glue_read32 BPCIE_ACK_READ,
           Event.raw_spin_unlock]
          ++ fanout_loop dom initial_hwirq pending 32 0 }

/-- The handlers that a run dispatches, in order. -/
def dispatched : List Event → List IrqDesc
  | [] => []
  | Event.handle_edge_irq d :: rest => d :: dispatched rest
  | _ :: rest => dispatched rest

/-- The hardware IRQ numbers that a run looks up, in order. -/
def looked_up : List Event → List Nat
  | [] => []
  | Event.irq_find_mapping hw :: rest => hw :: looked_up rest
  | _ :: rest => looked_up rest

/-- The descriptor to dispatch for bit `i` of the pending set `p`, if any: the
descriptor of the Linux IRQ number mapped to `base | i`, when bit `i` is set. -/
def dispatch_target (dom : IrqDomain) (base p i : Nat) : Option IrqDesc :=
  if p.testBit i then dom.irq_to_desc (dom.irq_find_mapping (base ||| i)) else none

/-- An IRQ domain for closed examples: the hardware number `hw` is mapped to the
Linux IRQ number `hw + 64`, and every Linux IRQ number has a descriptor. -/
def sample_domain : IrqDomain where
  irq_find_mapping := fun hw => hw + 64
  irq_to_desc := fun virq => some ⟨virq, virq - 64⟩

/-! ## The bit loops of `bpcie_msi_mask` and `bpcie_msi_unmask` -/

/-- The function `rol` of `baikal.h`: `c &= mask; return (n<<c) | (n>>((-c)&mask));`
with `mask = CHAR_BIT*sizeof(n) - 1 = 31`, every operation on 32-bit unsigned values. -/
def rol (n c : Nat) : Nat :=
  let mask := 31
  let c := u32 c &&& mask
  u32 (u32 (u32 n <<< c) ||| (u32 n >>> (u32 (4294967296 - c) &&& mask)))

/-- The inline-assembly loop of `bpcie_msi_mask`, from the label `loop:` on, with
`eax = msi_allocated`, `edx = subfunc`, `esi = i`, `ebx = msi_mask`:
`lea ecx, [rdx+rsi]; mov edi, 1; inc esi; shl edi, cl; or ebx, edi; cmp esi, eax; jl loop`.
`shl` on a 32-bit register uses the low five bits of `cl`; `jl` compares signed.
The result is the `ebx` moved to `result`; `none` means that the step budget ran out. -/
def msi_mask_asm (eax edx : Nat) : Nat → Nat → Nat → Option Nat
  | 0, _, _ => none
  | steps + 1, esi, ebx =>
      let ecx := u32 (edx + esi)
      let edi := 1
      let esi := u32 (esi + 1)
      let edi := u32 (edi <<< (ecx % 256 % 32))
      let ebx := ebx ||| edi
      if s32 esi < s32 eax then msi_mask_asm eax edx steps esi ebx else some ebx

/-- The inline-assembly loop of `bpcie_msi_unmask`, from the label `loop2:` on:
`lea ecx, [rdx+rsi]; mov edi, 0x0FFFFFFFE; inc esi; rol edi, cl; and ebx, edi;
cmp esi, eax; jl loop2`. The instruction `rol edi, cl` rotates by `cl` modulo 32, which
is the rotation that `rol` of `baikal.h` computes. -/
def msi_unmask_asm (eax edx : Nat) : Nat → Nat → Nat → Option Nat
  | 0, _, _ => none
  | steps + 1, esi, ebx =>
      let ecx := u32 (edx + esi)
      let edi := 0xFFFFFFFE
      let esi := u32 (esi + 1)
      let edi := rol edi (ecx % 256)
      let ebx := ebx &&& edi
      if s32 esi < s32 eax then msi_unmask_asm eax edx steps esi ebx else some ebx

/-- The mask word that the statements of `bpcie_msi_mask` compute from
`subfunc`, `msi_mask = desc->masked` and `msi_allocated = desc->nvec_used`:
`if (msi_allocated > 0) { asm loop; msi_mask = result; }`. The `asm` block starts with
`mov esi, 0`. -/
def bpcie_msi_mask_word (steps subfunc msi_mask msi_allocated : Nat) : Option Nat :=
  if u32 msi_allocated > 0 then
    msi_mask_asm (u32 msi_allocated) (u32 subfunc) steps 0 (u32 msi_mask)
  else some (u32 msi_mask)

/-- The mask word that the statements of `bpcie_msi_unmask` compute: the `asm`
block is entered without a test of `msi_allocated` (the `if ( msi_alloc > 0 )` of the
reference code is inside the comment only). -/
def bpcie_msi_unmask_word (steps subfunc msi_mask msi_allocated : Nat) : Option Nat :=
  msi_unmask_asm (u32 msi_allocated) (u32 subfunc) steps 0 (u32 msi_mask)

/-- The fields of `struct irq_data` that the MSI callbacks read. -/
structure IrqData where
  irq : Nat
  hwirq : Nat
  mask : Nat
  deriving DecidableEq

/-- The fields of `struct msi_desc` that the mask code reads and writes. -/
structure MsiDesc where
  masked : Nat
  nvec_used : Nat
  mask_pos : Nat
  deriving DecidableEq

/-- The call `pci_write_config_dword(pdev, pos, value)`. -/
structure ConfigWrite where
  pos : Nat
  value : Nat
  deriving DecidableEq

/-- Calls made by the mask callbacks of the `irq_chip` when they run. -/
inductive MaskCall where
  | pci_msi_mask_irq (data : IrqData)
  | pci_msi_unmask_irq (data : IrqData)
  deriving DecidableEq

/-- `bpcie_msi_mask(data)` as it runs: `pci_msi_mask_irq(data); return;`. The generic
function is outside this driver. -/
def bpcie_msi_mask (data : IrqData) : List MaskCall := [MaskCall.pci_msi_mask_irq data]

/-- `bpcie_msi_unmask(data)` as it runs: `pci_msi_unmask_irq(data); return;`. -/
def bpcie_msi_unmask (data : IrqData) : List MaskCall := [MaskCall.pci_msi_unmask_irq data]

/-- The formula of the specification for the mask update, as a plain bounded loop:
starting from 0, `acc |= 1 << ((s + i) mod 32)` for `i` in `[0, n)`. -/
def run_bits (s n : Nat) : Nat :=
  (List.range n).foldl (fun acc i => acc ||| 1 <<< ((s + i) % 32)) 0

/-! ## `bpcie_msi_write_msg` -/

/-- The fields of `struct msi_msg`. -/
structure MsiMsg where
  address_lo : Nat
  address_hi : Nat
  data : Nat
  deriving DecidableEq

/-- Calls made by `bpcie_msi_write_msg`. -/
inductive MsgCall where
  | dev_dbg
  | pci_msi_domain_write_msg (data : IrqData) (msg : MsiMsg)
  deriving DecidableEq

/-- `bpcie_msi_write_msg(data, msg)` on a world `w` (device and descriptor state):
`if (!msg->address_lo) return;` then `dev_dbg(...)` and
`pci_msi_domain_write_msg(data, msg)`. The generic write is a function of the kernel
outside this driver, given as the parameter `write`. The result is the world
afterwards and the calls made. -/
def bpcie_msi_write_msg {σ : Type} (write : IrqData → MsiMsg → σ → σ)
    (data : IrqData) (msg : MsiMsg) (w : σ) : σ × List MsgCall :=
  if msg.address_lo = 0 then (w, [])
  else (write data msg w, [MsgCall.dev_dbg, MsgCall.pci_msi_domain_write_msg data msg])

/-- The generic MSI writes among the calls of a run, in order. -/
def msg_writes : List MsgCall → List (IrqData × MsiMsg)
  | [] => []
  | MsgCall.pci_msi_domain_write_msg d m :: rest => (d, m) :: msg_writes rest
  | _ :: rest => msg_writes rest

/-! ## Kernel definitions that the driver uses -/

/-- Macros and constants of the kernel headers that the driver uses and that are
declared outside the driver: `PCI_SLOT`, `PCI_FUNC` (`linux/pci.h`),
`MSI_FLAG_MULTI_PCI_MSI` (`linux/msi.h`), `ENODEV` (`errno.h`) and the PCI ids of
`linux/pci_ids.h`. -/
structure KernelDefs where
  PCI_SLOT : Nat → Nat
  PCI_FUNC : Nat → Nat
  MSI_FLAG_MULTI_PCI_MSI : Nat
  ENODEV : Nat
  PCI_VENDOR_ID_SONY : Nat
  PCI_DEVICE_ID_SONY_BAIKAL_PCIE : Nat

/-- A value of the kernel definitions for closed examples: slot in bits 3..7 and
function in bits 0..2 of `devfn`, one flag bit, and error and id numbers. -/
def sample_defs : KernelDefs where
  PCI_SLOT := fun devfn => (devfn >>> 3) &&& 0x1f
  PCI_FUNC := fun devfn => devfn &&& 0x07
  MSI_FLAG_MULTI_PCI_MSI := 4
  ENODEV := 19
  PCI_VENDOR_ID_SONY := 0x104d
  PCI_DEVICE_ID_SONY_BAIKAL_PCIE := 0x90d9

/-! ## `bpcie_msi_domain_set_desc` -/

/-- The fields of `msi_alloc_info_t` that `bpcie_msi_domain_set_desc` computes from
the device: `msi_dev` (by the `devfn` looked up with `pci_get_slot`) and `msi_hwirq`.
The fields `type` and `flags` receive constants. -/
structure MsiAllocInfo where
  sc_devfn : Nat
  msi_hwirq : Nat
  deriving DecidableEq

/-- `bpcie_msi_domain_set_desc` for a device with the given `devfn`, `flags` being
`bpcie_msi_domain_info.flags`: `sc_devfn = (dev->devfn & ~7) | BAIKAL_FUNC_ID_PCIE`,
`msi_hwirq = (PCI_SLOT(dev->devfn) << 8) | (PCI_FUNC(dev->devfn) << 5)`, and, when
`MSI_FLAG_MULTI_PCI_MSI` is not set in the flags, `msi_hwirq |= 0x1F`. The arithmetic is
`unsigned int`. -/
def bpcie_msi_domain_set_desc (K : KernelDefs) (flags devfn : Nat) : MsiAllocInfo :=
  let sc_devfn := (u32 devfn &&& 0xFFFFFFF8) ||| BAIKAL_FUNC_ID_PCIE
  let msi_hwirq := u32 (u32 (K.PCI_SLOT devfn <<< 8) ||| u32 (K.PCI_FUNC devfn <<< 5))
  if flags &&& K.MSI_FLAG_MULTI_PCI_MSI = 0 then
    { sc_devfn := sc_devfn, msi_hwirq := msi_hwirq ||| 0x1F }
  else
    { sc_devfn := sc_devfn, msi_hwirq := msi_hwirq }

/-! ## `bpcie_assign_irqs` -/

/-- The fields of `struct pci_dev` that `bpcie_assign_irqs` reads; `drvdata` tells
whether `pci_get_drvdata(dev)` is non-`NULL`. -/
structure PciDev where
  vendor : Nat
  device : Nat
  devfn : Nat
  msi_enabled : Bool
  drvdata : Bool
  deriving DecidableEq

/-- Calls made by `bpcie_assign_irqs`. -/
inductive AssignCall where
  | pci_get_slot (devfn : Nat)
  | dev_err
  | dev_dbg
  | pci_alloc_irq_vectors (min_vecs max_vecs : Int)
  | pci_dev_put
  deriving DecidableEq

/-- `bpcie_is_compatible_device(dev)`, `none` being the `NULL` pointer. -/
def bpcie_is_compatible_device (K : KernelDefs) (dev : Option PciDev) : Bool :=
  match dev with
  | none => false
  | some d =>
      if d.vendor ≠ K.PCI_VENDOR_ID_SONY then false
      else d.device = K.PCI_DEVICE_ID_SONY_BAIKAL_PCIE

/-- The tail of `bpcie_assign_irqs` at the label `fail:`: `dev_dbg`, then
`pci_dev_put(sc_dev)` when `sc_dev` is not `NULL`. -/
def assign_fail_tail (sc_dev : Option PciDev) : List AssignCall :=
  AssignCall.dev_dbg :: (if sc_dev.isSome then [AssignCall.pci_dev_put] else [])

/-- `bpcie_assign_irqs(dev, nvec)`. The environment is `pci_get_slot` on the bus of
the device and `alloc min max`, the value that `pci_alloc_irq_vectors(dev, min, max,
PCI_IRQ_MSI)` returns; `flags` is `bpcie_msi_domain_info.flags`. The result is the
returned `int` and the calls made. -/
def bpcie_assign_irqs (K : KernelDefs) (pci_get_slot : Nat → Option PciDev)
    (alloc : Int → Int → Int) (flags : Nat) (dev : PciDev) (nvec : Int) :
    Int × List AssignCall :=
  let sc_devfn := (u32 dev.devfn &&& 0xFFFFFFF8) ||| BAIKAL_FUNC_ID_PCIE
  let sc_dev := pci_get_slot sc_devfn
  if ¬ bpcie_is_compatible_device K sc_dev then
    (-(K.ENODEV : Int),
      [AssignCall.pci_get_slot sc_devfn, AssignCall.dev_err] ++ assign_fail_tail sc_dev)
  else
    match sc_dev.map PciDev.drvdata with
    | some true =>
        let nvec := if flags &&& K.MSI_FLAG_MULTI_PCI_MSI = 0 then 1 else nvec
        if dev.msi_enabled then
          (nvec, [AssignCall.pci_get_slot sc_devfn, AssignCall.dev_dbg] ++ assign_fail_tail sc_dev)
        else
          (alloc 1 nvec,
            [AssignCall.pci_get_slot sc_devfn, AssignCall.dev_dbg,
             AssignCall.pci_alloc_irq_vectors 1 nvec] ++ assign_fail_tail sc_dev)
    | _ =>
        (-(K.ENODEV : Int),
          [AssignCall.pci_get_slot sc_devfn, AssignCall.dev_err] ++ assign_fail_tail sc_dev)

/-- The glue device (function 4 of slot 20) of the closed examples, probed. -/
def sample_glue : PciDev :=
  { vendor := 0x104d, device := 0x90d9, devfn := 0xA4, msi_enabled := true, drvdata := true }

/-- The xHCI function of slot 20 of the closed examples, MSI not yet enabled. -/
def sample_xhci : PciDev :=
  { vendor := 0x104d, device := 0x90db, devfn := 0xA7, msi_enabled := false, drvdata := false }

/-- The register accesses (`glue_write32`, `glue_read32`) among the calls of a run,
in order. -/
def reg_accesses : List Event → List Event
  | [] => []
  | Event.glue_write32 o v :: rest => Event.glue_write32 o v :: reg_accesses rest
  | Event.glue_read32 o :: rest => Event.glue_read32 o :: reg_accesses rest
  | _ :: rest => reg_accesses rest

/-- The members of `struct icc_message_hdr`, in the order of declaration. -/
inductive IccField where
  | magic
  | major
  | minor
  | unknown
  | cookie
  | length
  | checksum
  deriving DecidableEq

/-- The size of the declared type of a member: `u8` for `magic` and `major`, `u16` for
the others. -/
def IccField.size : IccField → Nat
  | IccField.magic => 1
  | IccField.major => 1
  | IccField.minor => 2
  | IccField.unknown => 2
  | IccField.cookie => 2
  | IccField.length => 2
  | IccField.checksum => 2

/-- The declaration `struct icc_message_hdr { u8 magic; u8 major; u16 minor;
u16 unknown; u16 cookie; u16 length; u16 checksum; } __packed`. -/
def icc_message_hdr : List IccField :=
  [IccField.magic, IccField.major, IccField.minor, IccField.unknown, IccField.cookie,
   IccField.length, IccField.checksum]

/-- The size of a `__packed` structure: the sum of the sizes of its members. -/
def sizeof_packed (members : List IccField) : Nat := (members.map IccField.size).sum

/-- `#define ICC_HDR_SIZE sizeof(struct icc_message_hdr)`. -/
def ICC_HDR_SIZE : Nat := sizeof_packed icc_message_hdr
/-- `#define ICC_MIN_SIZE 0x20`. -/
def ICC_MIN_SIZE : Nat := 0x20
/-- `#define ICC_MAX_SIZE 0x7f0`. -/
def ICC_MAX_SIZE : Nat := 0x7f0
/-- `#define ICC_MIN_PAYLOAD (ICC_MIN_SIZE - ICC_HDR_SIZE)`. -/
def ICC_MIN_PAYLOAD : Nat := ICC_MIN_SIZE - ICC_HDR_SIZE
/-- `#define ICC_MAX_PAYLOAD (ICC_MAX_SIZE - ICC_HDR_SIZE)`. -/
def ICC_MAX_PAYLOAD : Nat := ICC_MAX_SIZE - ICC_HDR_SIZE
/-- `#define ICC_MAGIC 0x42`. -/
def ICC_MAGIC : Nat := 0x42
/-- `#define ICC_REPLY 0x4000`. -/
def ICC_REPLY : Nat := 0x4000

/-- `#define HDR(x) (offsetof(struct icc_message_hdr, x))`: in the packed structure the
offset of a member is the size of the members declared before it. -/
def HDR (x : IccField) : Nat := sizeof_packed (icc_message_hdr.takeWhile (fun y => y ≠ x))

/-! ## `xhci_aeolia_probe` (`drivers/usb/host/xhci-aeolia.c`) -/

/-- The kernel definitions of `KernelDefs` with the error numbers of `errno.h` and the
PCI id that the probe functions use. -/
structure ProbeDefs extends KernelDefs where
  EPROBE_DEFER : Nat
  ENOMEM : Nat
  EIO : Nat
  EBUSY : Nat
  PCI_DEVICE_ID_SONY_AEOLIA_XHCI : Nat

/-- A value of the definitions for closed examples. -/
def sample_probe_defs : ProbeDefs :=
  { sample_defs with
    EPROBE_DEFER := 517, ENOMEM := 12, EIO := 5, EBUSY := 16,
    PCI_DEVICE_ID_SONY_AEOLIA_XHCI := 0x90a4 }

/-- `#define NR_DEVICES 3`. -/
def NR_DEVICES : Nat := 3

/-- Calls made by `xhci_aeolia_probe`, in program order. -/
inductive XhciCall where
  | apcie_status
  | pci_enable_device
  | devm_kzalloc
  | pci_set_drvdata (null : Bool)
  | apcie_assign_irqs (nvec : Int)
  | pci_set_dma_mask
  | pci_set_consistent_dma_mask
  | ahci_init_one
  | pci_set_master
  | xhci_aeolia_probe_one (index : Nat)
  | xhci_aeolia_remove_one (index : Nat)
  | apcie_free_irqs (nr_irqs : Int)
  | devm_kfree
  | pci_disable_device
  deriving DecidableEq

/-- The answers of the environment to the calls of `xhci_aeolia_probe`: the values
returned, whether the allocation gives memory, the device id `dev->device`, and the value
of the static `bus_master` when it is tested after `ahci_init_one`. A call of
`ahci_init_one` that returns 0 has passed its own
`if (!bus_master) { pci_set_master(pdev); bus_master = true; }`, so the static is set
whenever `ahci_init_one` is 0. -/
structure XhciEnv where
  apcie_status : Int
  pci_enable_device : Int
  devm_kzalloc : Bool
  apcie_assign_irqs : Int → Int
  pci_set_dma_mask : Int
  pci_set_consistent_dma_mask : Int
  ahci_init_one : Int
  bus_master : Bool
  device : Nat
  xhci_aeolia_probe_one : Nat → Int

/-- The loop `for (idx = 0; idx < NR_DEVICES; idx++)` of `xhci_aeolia_probe`, at `idx`
with `todo` iterations left: the index 1 is skipped on a device that is not the Aeolia
xHCI; the first non-zero `retval` leaves the loop (`goto remove_hcds`) with that value
and the index. The result is the calls made and the exit taken, if any. -/
def xhci_probe_loop (K : ProbeDefs) (env : XhciEnv) :
    Nat → Nat → List XhciCall × Option (Int × Nat)
  | 0, _ => ([], none)
  | todo + 1, idx =>
      if env.device ≠ K.PCI_DEVICE_ID_SONY_AEOLIA_XHCI ∧ idx = 1 then
        xhci_probe_loop K env todo (idx + 1)
      else if env.xhci_aeolia_probe_one idx ≠ 0 then
        ([XhciCall.xhci_aeolia_probe_one idx], some (env.xhci_aeolia_probe_one idx, idx))
      else
        (XhciCall.xhci_aeolia_probe_one idx :: (xhci_probe_loop K env todo (idx + 1)).1,
         (xhci_probe_loop K env todo (idx + 1)).2)

/-- The loop `while (idx--) xhci_aeolia_remove_one(dev, idx);` entered with `idx`. -/
def xhci_remove_loop : Nat → List XhciCall
  | 0 => []
  | idx + 1 => XhciCall.xhci_aeolia_remove_one idx :: xhci_remove_loop idx

/-- The statements of `xhci_aeolia_probe` from the label `free_axhci:` on. -/
def xhci_free_axhci : List XhciCall :=
  [XhciCall.devm_kfree, XhciCall.pci_set_drvdata true, XhciCall.pci_disable_device]

/-- `xhci_aeolia_probe(dev, id)`: the value returned and the calls made. The test
`if (!bus_master)` after `ahci_init_one` fails when the static is set, which is the case
after every call of `ahci_init_one` that returned 0. -/
def xhci_aeolia_probe (K : ProbeDefs) (env : XhciEnv) : Int × List XhciCall :=
  if env.apcie_status = 0 then
    (-(K.EPROBE_DEFER : Int), [XhciCall.apcie_status])
  else if env.pci_enable_device < 0 then
    (-(K.ENODEV : Int), [XhciCall.apcie_status, XhciCall.pci_enable_device])
  else if ¬ env.devm_kzalloc then
    (-(K.ENOMEM : Int),
      [XhciCall.apcie_status, XhciCall.pci_enable_device, XhciCall.devm_kzalloc,
       XhciCall.pci_disable_device])
  else
    let start := [XhciCall.apcie_status, XhciCall.pci_enable_device, XhciCall.devm_kzalloc,
      XhciCall.pci_set_drvdata false, XhciCall.apcie_assign_irqs NR_DEVICES]
    let nr_irqs := env.apcie_assign_irqs NR_DEVICES
    if nr_irqs < 0 then
      (nr_irqs, start ++ xhci_free_axhci)
    else if env.pci_set_dma_mask ≠ 0 then
      (-(K.ENODEV : Int), start ++ [XhciCall.pci_set_dma_mask])
    else if env.pci_set_consistent_dma_mask ≠ 0 then
      (-(K.ENODEV : Int),
        start ++ [XhciCall.pci_set_dma_mask, XhciCall.pci_set_consistent_dma_mask])
    else
      let setup := start ++ [XhciCall.pci_set_dma_mask, XhciCall.pci_set_consistent_dma_mask,
        XhciCall.ahci_init_one]
        ++ (if env.bus_master ∨ env.ahci_init_one = 0 then [] else [XhciCall.pci_set_master])
      match (xhci_probe_loop K env NR_DEVICES 0).2 with
      | none => (0, setup ++ (xhci_probe_loop K env NR_DEVICES 0).1)
      | some (retval, idx) =>
          (retval,
            setup ++ (xhci_probe_loop K env NR_DEVICES 0).1 ++ xhci_remove_loop idx
              ++ [XhciCall.apcie_free_irqs nr_irqs] ++ xhci_free_axhci)

/-- An environment for closed examples: the glue device is ready, every call succeeds,
but `apcie_assign_irqs` returns `-ENODEV = -19`. -/
def sample_xhci_env : XhciEnv :=
  { apcie_status := 1, pci_enable_device := 0, devm_kzalloc := true,
    apcie_assign_irqs := fun _ => -19, pci_set_dma_mask := 0,
    pci_set_consistent_dma_mask := 0, ahci_init_one := 0, bus_master := true,
    device := 0x90db, xhci_aeolia_probe_one := fun _ => 0 }

/-! ## `bpcie_probe` and the set-up of the glue function -/

/-- `enum bpcie_subfunc`: `BPCIE_SUBFUNC_ICC`. -/
def BPCIE_SUBFUNC_ICC : Nat := 3
/-- `enum bpcie_subfunc`: `BPCIE_SUBFUNC_UART0`. -/
def BPCIE_SUBFUNC_UART0 : Nat := 26
/-- `enum bpcie_subfunc`: `BPCIE_SUBFUNC_UART1`. -/
def BPCIE_SUBFUNC_UART1 : Nat := 27
/-- `#define BPCIE_NR_UARTS 2`. -/
def BPCIE_NR_UARTS : Nat := 2

/-- The fields of `struct abpcie_dev` (`bpcie_dev`) that the probe path reads and
writes: whether each BAR is mapped, whether `irqdomain` is non-`NULL`, `nvec` and
`serial_line`. -/
structure BpcieDev where
  bar0 : Bool
  bar2 : Bool
  bar4 : Bool
  irqdomain : Bool
  nvec : Int
  serial_line : List Int
  deriving DecidableEq

/-- Calls made on the probe path of the glue function, in program order, with the
answer of the environment where the call has one. Log calls are left out. -/
inductive ProbeCall where
  | pci_enable_device (ret : Int)
  | kzalloc (ok : Bool)
  | pci_set_drvdata
  | pci_ioremap_bar (bar : Nat) (ok : Bool)
  | request_mem_region (bar : Nat) (ok : Bool)
  | release_mem_region (bar : Nat)
  | pci_get_slot (func : Nat) (found : Bool)
  | pci_dev_put (func : Nat)
  | irq_remapping_get_ir_irq_domain (func : Nat) (found : Bool)
  | pci_msi_create_irq_domain (func : Nat) (ok : Bool)
  | dev_set_msi_domain (func : Nat)
  | pci_alloc_irq_vectors (min_vecs max_vecs ret : Int)
  | irq_domain_free_irqs (virq : Nat) (nr_irqs : Int)
  | irq_domain_remove
  | serial8250_register_8250_port (index irq : Nat) (line : Int)
  | serial8250_unregister_port (index : Nat) (line : Int)
  | bpcie_icc_init (ret : Int)
  | iounmap (bar : Nat)
  | kfree
  | pci_disable_device
  deriving DecidableEq

/-- The answers of the environment on the probe path: return values, whether a
pointer returned is non-`NULL`, whether `x86_vector_domain` is non-`NULL`, and `irq`,
the value of `sc->pdev->irq` once vectors are allocated. -/
structure BpcieEnv where
  pci_enable_device : Int
  kzalloc : Bool
  pci_ioremap_bar : Nat → Bool
  request_mem_region : Nat → Bool
  get_bpcie_device : Nat → Bool
  x86_vector_domain : Bool
  irq_remapping_get_ir_irq_domain : Nat → Bool
  pci_msi_create_irq_domain : Nat → Bool
  pci_alloc_irq_vectors : Int → Int → Int
  irq : Nat
  serial8250_register_8250_port : Nat → Int
  bpcie_icc_init : Int

/-- `bpcie_irqnum(sc, index)` of `baikal.h`, `irq` being `sc->pdev->irq`. -/
def bpcie_irqnum (sc : BpcieDev) (irq index : Nat) : Nat :=
  if sc.nvec > 1 then irq + index else irq

/-- Result of `bpcie_create_irq_domain` and of the loop over the functions: whether
the domain pointer is non-`NULL`, `bpcie_msi_domain_info.flags` afterwards, and the
calls made. -/
structure DomainResult where
  domain : Bool
  flags : Nat
  trace : List ProbeCall

/-- `bpcie_create_irq_domain(sc, pdev)` for the device of function `func`. -/
def bpcie_create_irq_domain (K : ProbeDefs) (env : BpcieEnv) (func flags : Nat) :
    DomainResult :=
  if ¬ env.x86_vector_domain then
    { domain := false, flags := flags, trace := [] }
  else
    { domain := env.pci_msi_create_irq_domain func,
      flags :=
        if env.irq_remapping_get_ir_irq_domain func then flags ||| K.MSI_FLAG_MULTI_PCI_MSI
        else flags,
      trace :=
        [ProbeCall.irq_remapping_get_ir_irq_domain func
            (env.irq_remapping_get_ir_irq_domain func),
         ProbeCall.pci_msi_create_irq_domain func (env.pci_msi_create_irq_domain func)]
        ++ (if env.pci_msi_create_irq_domain func then [ProbeCall.dev_set_msi_domain func]
            else []) }

/-- The loop `for (func = 0; func < BAIKAL_NUM_FUNCS; ++func)` of
`bpcie_create_irq_domains`, at `func` with `todo` iterations left; `domain` is
`sc->irqdomain`, which only the iteration of `BAIKAL_FUNC_ID_PCIE` assigns. -/
def bpcie_create_irq_domains (K : ProbeDefs) (env : BpcieEnv) :
    Nat → Nat → Bool → Nat → DomainResult
  | 0, _, domain, flags => { domain := domain, flags := flags, trace := [] }
  | todo + 1, func, domain, flags =>
      if env.get_bpcie_device func then
        { domain :=
            (bpcie_create_irq_domains K env todo (func + 1)
              (if func = BAIKAL_FUNC_ID_PCIE then
                (bpcie_create_irq_domain K env func flags).domain else domain)
              (bpcie_create_irq_domain K env func flags).flags).domain,
          flags :=
            (bpcie_create_irq_domains K env todo (func + 1)
              (if func = BAIKAL_FUNC_ID_PCIE then
                (bpcie_create_irq_domain K env func flags).domain else domain)
              (bpcie_create_irq_domain K env func flags).flags).flags,
          trace :=
            [ProbeCall.pci_get_slot func true]
            ++ (bpcie_create_irq_domain K env func flags).trace
            ++ [ProbeCall.pci_dev_put func]
            ++ (bpcie_create_irq_domains K env todo (func + 1)
              (if func = BAIKAL_FUNC_ID_PCIE then
                (bpcie_create_irq_domain K env func flags).domain else domain)
              (bpcie_create_irq_domain K env func flags).flags).trace }
      else
        { domain := (bpcie_create_irq_domains K env todo (func + 1) domain flags).domain,
          flags := (bpcie_create_irq_domains K env todo (func + 1) domain flags).flags,
          trace :=
            ProbeCall.pci_get_slot func false
              :: (bpcie_create_irq_domains K env todo (func + 1) domain flags).trace }

/-- Result of a set-up or tear-down function of the glue driver: the `int` returned
(0 for a `void` function), the device state and the flags afterwards, the calls made. -/
structure GlueResult where
  ret : Int
  sc : BpcieDev
  flags : Nat
  trace : List ProbeCall

/-- `bpcie_glue_remove(sc)`. -/
def bpcie_glue_remove (env : BpcieEnv) (sc : BpcieDev) (flags : Nat) : GlueResult :=
  { ret := 0,
    sc := { sc with nvec := if sc.nvec > 0 then 0 else sc.nvec, irqdomain := false },
    flags := flags,
    trace :=
      (if sc.nvec > 0 then [ProbeCall.irq_domain_free_irqs env.irq sc.nvec] else [])
      ++ (if sc.irqdomain then [ProbeCall.irq_domain_remove] else [])
      ++ [ProbeCall.release_mem_region 4, ProbeCall.release_mem_region 2] }

/-- `bpcie_glue_init(sc)`. -/
def bpcie_glue_init (K : ProbeDefs) (env : BpcieEnv) (sc : BpcieDev) (flags : Nat) :
    GlueResult :=
  if ¬ env.request_mem_region 2 then
    { ret := -(K.EBUSY : Int), sc := sc, flags := flags,
      trace := [ProbeCall.request_mem_region 2 false] }
  else if ¬ env.request_mem_region 4 then
    { ret := -(K.EBUSY : Int), sc := sc, flags := flags,
      trace := [ProbeCall.request_mem_region 2 true, ProbeCall.request_mem_region 4 false,
        ProbeCall.release_mem_region 2] }
  else
    let doms := bpcie_create_irq_domains K env BAIKAL_NUM_FUNCS 0 sc.irqdomain flags
    let sc1 := { sc with irqdomain := doms.domain }
    let start := [ProbeCall.request_mem_region 2 true, ProbeCall.request_mem_region 4 true]
      ++ doms.trace
    if ¬ sc1.irqdomain then
      { ret := -(K.EIO : Int), sc := (bpcie_glue_remove env sc1 doms.flags).sc,
        flags := doms.flags,
        trace := start ++ (bpcie_glue_remove env sc1 doms.flags).trace }
    else
      let nvec := env.pci_alloc_irq_vectors (BPCIE_SUBFUNC_ICC + 1) BPCIE_NUM_SUBFUNCS
      let sc2 := { sc1 with nvec := nvec }
      let alloc := [ProbeCall.pci_alloc_irq_vectors (BPCIE_SUBFUNC_ICC + 1)
        BPCIE_NUM_SUBFUNCS nvec]
      if nvec ≤ 0 then
        { ret := -(K.EIO : Int), sc := (bpcie_glue_remove env sc2 doms.flags).sc,
          flags := doms.flags,
          trace := start ++ alloc ++ (bpcie_glue_remove env sc2 doms.flags).trace }
      else
        { ret := 0, sc := sc2, flags := doms.flags, trace := start ++ alloc }

/-- The loop `for (i = 0; i < BPCIE_NR_UARTS; i++)` of `bpcie_uart_remove`, at `i`
with `todo` iterations left, on the array `sc->serial_line`. -/
def uart_remove_loop : Nat → Nat → List Int → List Int × List ProbeCall
  | 0, _, lines => (lines, [])
  | todo + 1, i, lines =>
      if lines.getD i 0 ≥ 0 then
        ((uart_remove_loop todo (i + 1) (lines.set i (-1))).1,
         ProbeCall.serial8250_unregister_port i (lines.getD i 0)
           :: (uart_remove_loop todo (i + 1) (lines.set i (-1))).2)
      else uart_remove_loop todo (i + 1) lines

/-- `bpcie_uart_remove(sc)`. -/
def bpcie_uart_remove (sc : BpcieDev) (flags : Nat) : GlueResult :=
  { ret := 0,
    sc := { sc with serial_line := (uart_remove_loop BPCIE_NR_UARTS 0 sc.serial_line).1 },
    flags := flags,
    trace := (uart_remove_loop BPCIE_NR_UARTS 0 sc.serial_line).2 }

/-- The first loop of `bpcie_uart_init`: `sc->serial_line[i] = -1` for every `i`. -/
def uart_clear_loop : Nat → Nat → List Int → List Int
  | 0, _, lines => lines
  | todo + 1, i, lines => uart_clear_loop todo (i + 1) (lines.set i (-1))

/-- The second loop of `bpcie_uart_init`, at `i` with `todo` iterations left: the port
is registered with the IRQ `bpcie_irqnum(sc, BPCIE_SUBFUNC_UART0 + i)`; a negative line
makes the function call `bpcie_uart_remove` and return `-EIO`. -/
def uart_init_loop (K : ProbeDefs) (env : BpcieEnv) (flags : Nat) :
    Nat → Nat → BpcieDev → GlueResult
  | 0, _, sc => { ret := 0, sc := sc, flags := flags, trace := [] }
  | todo + 1, i, sc =>
      if env.serial8250_register_8250_port i < 0 then
        { ret := -(K.EIO : Int),
          sc := (bpcie_uart_remove
            { sc with serial_line := sc.serial_line.set i (env.serial8250_register_8250_port i) }
            flags).sc,
          flags := flags,
          trace :=
            ProbeCall.serial8250_register_8250_port i
                (bpcie_irqnum sc env.irq (BPCIE_SUBFUNC_UART0 + i))
                (env.serial8250_register_8250_port i)
              :: (bpcie_uart_remove
                { sc with
                  serial_line := sc.serial_line.set i (env.serial8250_register_8250_port i) }
                flags).trace }
      else
        { ret :=
            (uart_init_loop K env flags todo (i + 1)
              { sc with
                serial_line := sc.serial_line.set i (env.serial8250_register_8250_port i) }).ret,
          sc :=
            (uart_init_loop K env flags todo (i + 1)
              { sc with
                serial_line := sc.serial_line.set i (env.serial8250_register_8250_port i) }).sc,
          flags := flags,
          trace :=
            ProbeCall.serial8250_register_8250_port i
                (bpcie_irqnum sc env.irq (BPCIE_SUBFUNC_UART0 + i))
                (env.serial8250_register_8250_port i)
              :: (uart_init_loop K env flags todo (i + 1)
                { sc with
                  serial_line :=
                    sc.serial_line.set i (env.serial8250_register_8250_port i) }).trace }

/-- `bpcie_uart_init(sc)` of `ps4-bpcie-uart.c`. -/
def bpcie_uart_init (K : ProbeDefs) (env : BpcieEnv) (sc : BpcieDev) (flags : Nat) :
    GlueResult :=
  uart_init_loop K env flags BPCIE_NR_UARTS 0
    { sc with serial_line := uart_clear_loop BPCIE_NR_UARTS 0 sc.serial_line }

/-- Result of `bpcie_probe`: the `int` returned; the device state, `none` when it was
not allocated or was freed; whether `pci_set_drvdata(dev, sc)` was made (the function
does not clear the pointer); the flags and `bpcie_initialized` afterwards; the calls. -/
structure ProbeResult where
  ret : Int
  sc : Option BpcieDev
  drvdata : Bool
  flags : Nat
  bpcie_initialized : Bool
  trace : List ProbeCall

/-- The statements of `bpcie_probe` from the label `free_bars:` on. -/
def probe_free_bars (sc : BpcieDev) : List ProbeCall :=
  (if sc.bar0 then [ProbeCall.iounmap 0] else [])
  ++ (if sc.bar2 then [ProbeCall.iounmap 2] else [])
  ++ (if sc.bar4 then [ProbeCall.iounmap 4] else [])
  ++ [ProbeCall.kfree, ProbeCall.pci_disable_device]

/-- `bpcie_probe(dev, id)`, started with the given `bpcie_msi_domain_info.flags` and
`bpcie_initialized`. `bpcie_icc_init` is defined in another file of the driver: it is a
call whose value the environment gives. -/
def bpcie_probe (K : ProbeDefs) (env : BpcieEnv) (flags : Nat) (initialized : Bool) :
    ProbeResult :=
  if env.pci_enable_device ≠ 0 then
    { ret := env.pci_enable_device, sc := none, drvdata := false, flags := flags,
      bpcie_initialized := initialized,
      trace := [ProbeCall.pci_enable_device env.pci_enable_device] }
  else if ¬ env.kzalloc then
    { ret := -(K.ENOMEM : Int), sc := none, drvdata := false, flags := flags,
      bpcie_initialized := initialized,
      trace := [ProbeCall.pci_enable_device env.pci_enable_device, ProbeCall.kzalloc false,
        ProbeCall.pci_disable_device] }
  else
    let sc0 : BpcieDev :=
      { bar0 := env.pci_ioremap_bar 0, bar2 := env.pci_ioremap_bar 2,
        bar4 := env.pci_ioremap_bar 4, irqdomain := false, nvec := 0, serial_line := [0, 0] }
    let start := [ProbeCall.pci_enable_device env.pci_enable_device, ProbeCall.kzalloc true,
      ProbeCall.pci_set_drvdata,
      ProbeCall.pci_ioremap_bar 0 sc0.bar0, ProbeCall.pci_ioremap_bar 2 sc0.bar2,
      ProbeCall.pci_ioremap_bar 4 sc0.bar4]
    if ¬ sc0.bar0 ∨ ¬ sc0.bar2 ∨ ¬ sc0.bar4 then
      { ret := -(K.EIO : Int), sc := none, drvdata := true, flags := flags,
        bpcie_initialized := initialized, trace := start ++ probe_free_bars sc0 }
    else
      let glue := bpcie_glue_init K env sc0 flags
      if glue.ret < 0 then
        { ret := glue.ret, sc := none, drvdata := true, flags := glue.flags,
          bpcie_initialized := initialized,
          trace := start ++ glue.trace ++ probe_free_bars glue.sc }
      else
        let uart := bpcie_uart_init K env glue.sc glue.flags
        if uart.ret < 0 then
          let rm := bpcie_glue_remove env uart.sc glue.flags
          { ret := uart.ret, sc := none, drvdata := true, flags := glue.flags,
            bpcie_initialized := initialized,
            trace := start ++ glue.trace ++ uart.trace ++ rm.trace ++ probe_free_bars rm.sc }
        else if env.bpcie_icc_init < 0 then
          let ur := bpcie_uart_remove uart.sc glue.flags
          let rm := bpcie_glue_remove env ur.sc glue.flags
          { ret := env.bpcie_icc_init, sc := none, drvdata := true, flags := glue.flags,
            bpcie_initialized := initialized,
            trace := start ++ glue.trace ++ uart.trace
              ++ [ProbeCall.bpcie_icc_init env.bpcie_icc_init]
              ++ ur.trace ++ rm.trace ++ probe_free_bars rm.sc }
        else
          { ret := 0, sc := some uart.sc, drvdata := true, flags := glue.flags,
            bpcie_initialized := true,
            trace := start ++ glue.trace ++ uart.trace
              ++ [ProbeCall.bpcie_icc_init env.bpcie_icc_init] }

/-- A resource that the probe path acquires and releases. -/
inductive Resource where
  | device_enable
  | state
  | bar (n : Nat)
  | region (n : Nat)
  | irq_domain (func : Nat)
  | irq_vectors
  | uart_port (index : Nat)
  | icc
  deriving DecidableEq

/-- The resource that a call acquires, if the call succeeds in acquiring one. -/
def ProbeCall.acquires : ProbeCall → Option Resource
  | ProbeCall.pci_enable_device ret => if ret = 0 then some Resource.device_enable else none
  | ProbeCall.kzalloc ok => if ok then some Resource.state else none
  | ProbeCall.pci_ioremap_bar n ok => if ok then some (Resource.bar n) else none
  | ProbeCall.request_mem_region n ok => if ok then some (Resource.region n) else none
  | ProbeCall.pci_msi_create_irq_domain f ok => if ok then some (Resource.irq_domain f) else none
  | ProbeCall.pci_alloc_irq_vectors _ _ ret => if ret > 0 then some Resource.irq_vectors else none
  | ProbeCall.serial8250_register_8250_port i _ line =>
      if line ≥ 0 then some (Resource.uart_port i) else none
  | ProbeCall.bpcie_icc_init ret => if ret ≥ 0 then some Resource.icc else none
  | _ => none

/-- The resource that a call releases, if any; `irq_domain_remove` is called on
`sc->irqdomain`, the domain of function 4. -/
def ProbeCall.releases : ProbeCall → Option Resource
  | ProbeCall.pci_disable_device => some Resource.device_enable
  | ProbeCall.kfree => some Resource.state
  | ProbeCall.iounmap n => some (Resource.bar n)
  | ProbeCall.release_mem_region n => some (Resource.region n)
  | ProbeCall.irq_domain_remove => some (Resource.irq_domain BAIKAL_FUNC_ID_PCIE)
  | ProbeCall.irq_domain_free_irqs _ _ => some Resource.irq_vectors
  | ProbeCall.serial8250_unregister_port i _ => some (Resource.uart_port i)
  | _ => none

/-- The resources acquired in a run, in order. -/
def acquired (trace : List ProbeCall) : List Resource := trace.filterMap ProbeCall.acquires

/-- The resources released in a run, in order. -/
def released (trace : List ProbeCall) : List Resource := trace.filterMap ProbeCall.releases

/-- An environment for closed examples: every call succeeds, all eight functions are
present and each gets an IRQ domain, 32 vectors are allocated from IRQ 40 on. -/
def sample_bpcie_env : BpcieEnv :=
  { pci_enable_device := 0, kzalloc := true, pci_ioremap_bar := fun _ => true,
    request_mem_region := fun _ => true, get_bpcie_device := fun _ => true,
    x86_vector_domain := true, irq_remapping_get_ir_irq_domain := fun _ => true,
    pci_msi_create_irq_domain := fun _ => true, pci_alloc_irq_vectors := fun _ _ => 32,
    irq := 40, serial8250_register_8250_port := fun i => i, bpcie_icc_init := 0 }

/-- The environment of the closed examples, but BAR2 fails to map. -/
def sample_env_no_bar2 : BpcieEnv :=
  { sample_bpcie_env with pci_ioremap_bar := fun n => decide (n ≠ 2) }

/-- The environment of the closed examples, but `pci_alloc_irq_vectors` returns `-28`. -/
def sample_env_no_vectors : BpcieEnv :=
  { sample_bpcie_env with pci_alloc_irq_vectors := fun _ _ => -28 }

/-! ## The mask callbacks, statement by statement -/

/-- The statements of the body of `bpcie_msi_mask` and of `bpcie_msi_unmask`, in the
order they are written: the generic call, `return;`, the loop that computes
`msi_mask`, `pci_write_config_dword(pdev, desc->mask_pos, msi_mask);` and
`desc->masked = msi_mask;`. -/
inductive MaskStmt where
  | generic_call
  | return_stmt
  | bit_loop
  | write_config
  | store_masked
  deriving DecidableEq

/-- What a run of a mask callback leaves behind: the descriptor, the calls into the
generic MSI code, the configuration writes of the driver and the statements that were
executed. -/
structure MaskRun where
  desc : MsiDesc
  calls : List MaskCall
  writes : List ConfigWrite
  executed : List MaskStmt
  deriving DecidableEq

/-- Execution of a statement list of a mask callback. `call` is the generic call of
the callback and `generic` its effect on the descriptor (the generic function is
implemented elsewhere in the kernel tree); `word` is the loop of the callback, which
yields the new mask word; `msi_mask` is the local variable. `return;` ends the run. -/
def run_mask_body (call : MaskCall) (generic : MsiDesc → MsiDesc)
    (word : MsiDesc → Option Nat) : List MaskStmt → Nat → MaskRun → Option MaskRun
  | [], _, r => some r
  | MaskStmt.generic_call :: rest, msi_mask, r =>
    run_mask_body call generic word rest msi_mask
      { r with desc := generic r.desc, calls := r.calls ++ [call],
               executed := r.executed ++ [MaskStmt.generic_call] }
  | MaskStmt.return_stmt :: _, _, r => some r
  | MaskStmt.bit_loop :: rest, _, r =>
    match word r.desc with
    | none => none
    | some m =>
      run_mask_body call generic word rest m
        { r with executed := r.executed ++ [MaskStmt.bit_loop] }
  | MaskStmt.write_config :: rest, msi_mask, r =>
    run_mask_body call generic word rest msi_mask
      { r with writes := r.writes ++ [⟨r.desc.mask_pos, msi_mask⟩],
               executed := r.executed ++ [MaskStmt.write_config] }
  | MaskStmt.store_masked :: rest, msi_mask, r =>
    run_mask_body call generic word rest msi_mask
      { r with desc := { r.desc with masked := msi_mask },
               executed := r.executed ++ [MaskStmt.store_masked] }

/-- The body shared by `bpcie_msi_mask` and `bpcie_msi_unmask`:
generic call, `return;`, loop, configuration write, store. -/
def bpcie_msi_body : List MaskStmt :=
  [MaskStmt.generic_call, MaskStmt.return_stmt, MaskStmt.bit_loop,
   MaskStmt.write_config, MaskStmt.store_masked]

/-- A run of `bpcie_msi_mask(data)` on the descriptor `desc` of the interrupt. -/
def bpcie_msi_mask_run (steps : Nat) (generic : MsiDesc → MsiDesc) (data : IrqData)
    (desc : MsiDesc) : Option MaskRun :=
  run_mask_body (MaskCall.pci_msi_mask_irq data) generic
    (fun d => bpcie_msi_mask_word steps (get_subfunc data.hwirq) d.masked d.nvec_used)
    bpcie_msi_body 0 ⟨desc, [], [], []⟩

/-- A run of `bpcie_msi_unmask(data)` on the descriptor `desc` of the interrupt. -/
def bpcie_msi_unmask_run (steps : Nat) (generic : MsiDesc → MsiDesc) (data : IrqData)
    (desc : MsiDesc) : Option MaskRun :=
  run_mask_body (MaskCall.pci_msi_unmask_irq data) generic
    (fun d => bpcie_msi_unmask_word steps (get_subfunc data.hwirq) d.masked d.nvec_used)
    bpcie_msi_body 0 ⟨desc, [], [], []⟩

/-! ## Layout of the ICC mailbox and registers (`baikal.h`, `aeolia-baikal.h`) -/

/-- `#define BPCIE_RGN_ICC_BASE (0x108000 - 0x800)`. -/
def BPCIE_RGN_ICC_BASE : Nat := 0x108000 - 0x800

/-- `#define BPCIE_RGN_ICC_SIZE 0x1000`. -/
def BPCIE_RGN_ICC_SIZE : Nat := 0x1000

/-- `#define BPCIE_REG_ICC(x) (BPCIE_RGN_ICC_BASE + (x))`. -/
def BPCIE_REG_ICC (x : Nat) : Nat := BPCIE_RGN_ICC_BASE + x

/-- `#define BPCIE_REG_ICC_DOORBELL BPCIE_REG_ICC(0x804)`. -/
def BPCIE_REG_ICC_DOORBELL : Nat := BPCIE_REG_ICC 0x804

/-- `#define BPCIE_REG_ICC_STATUS BPCIE_REG_ICC(0x814)`. -/
def BPCIE_REG_ICC_STATUS : Nat := BPCIE_REG_ICC 0x814

/-- `#define BPCIE_REG_ICC_IRQ_MASK BPCIE_REG_ICC(0x824)`. -/
def BPCIE_REG_ICC_IRQ_MASK : Nat := BPCIE_REG_ICC 0x824

/-- `#define BPCIE_SPM_ICC_BASE 0x2c000`. -/
def BPCIE_SPM_ICC_BASE : Nat := 0x2c000

/-- `#define BPCIE_SPM_ICC_SIZE 0x1000`. -/
def BPCIE_SPM_ICC_SIZE : Nat := 0x1000

/-- `#define BPCIE_SPM_ICC_REQUEST 0x0`. -/
def BPCIE_SPM_ICC_REQUEST : Nat := 0x0

/-- `#define BPCIE_SPM_ICC_REPLY 0x800`. -/
def BPCIE_SPM_ICC_REPLY : Nat := 0x800

/-- `#define BUF_FULL 0x7f0`. -/
def BUF_FULL : Nat := 0x7f0

/-- `#define BUF_EMPTY 0x7f4`. -/
def BUF_EMPTY : Nat := 0x7f4

/-- Size in bytes of a flag word and of a 32-bit register. -/
def WORD_SIZE : Nat := 4

/-- The byte ranges `[a, a + la)` and `[b, b + lb)` have no byte in common. -/
def ranges_disjoint (a la b lb : Nat) : Prop := a + la ≤ b ∨ b + lb ≤ a

instance (a la b lb : Nat) : Decidable (ranges_disjoint a la b lb) := by
  unfold ranges_disjoint; infer_instance

/-- The byte range `[a, a + la)` lies inside `[b, b + lb)`. -/
def range_inside (a la b lb : Nat) : Prop := b ≤ a ∧ a + la ≤ b + lb

instance (a la b lb : Nat) : Decidable (range_inside a la b lb) := by
  unfold range_inside; infer_instance

/-! ## `ahci_init_one`: choice of the register BAR (`ahci.c`) -/

/-- `AHCI_PCI_BAR_STA2X11 = 0`. -/
def AHCI_PCI_BAR_STA2X11 : Nat := 0

/-- `AHCI_PCI_BAR_CAVIUM = 0`. -/
def AHCI_PCI_BAR_CAVIUM : Nat := 0

/-- `AHCI_PCI_BAR_ENMOTUS = 2`. -/
def AHCI_PCI_BAR_ENMOTUS : Nat := 2

/-- `AHCI_PCI_BAR_CAVIUM_GEN5 = 4`. -/
def AHCI_PCI_BAR_CAVIUM_GEN5 : Nat := 4

/-- `AHCI_PCI_BAR_STANDARD = 5`. -/
def AHCI_PCI_BAR_STANDARD : Nat := 5

/-- `AHCI_PCI_BAR0_BAIKAL = 0`. -/
def AHCI_PCI_BAR0_BAIKAL : Nat := 0

/-- Identifiers of `pci_ids.h` that the BAR choice compares with. -/
structure AhciDefs where
  PCI_VENDOR_ID_STMICRO : Nat
  PCI_VENDOR_ID_CAVIUM : Nat
  PCI_VENDOR_ID_SONY : Nat
  PCI_DEVICE_ID_SONY_BAIKAL_AHCI : Nat

/-- A value of the identifiers for closed examples. -/
def sample_ahci_defs : AhciDefs where
  PCI_VENDOR_ID_STMICRO := 0x104a
  PCI_VENDOR_ID_CAVIUM := 0x177d
  PCI_VENDOR_ID_SONY := 0x104d
  PCI_DEVICE_ID_SONY_BAIKAL_AHCI := 0x90d9

/-- The BAR choice of `ahci_init_one`: `ahci_pci_bar` starts as
`AHCI_PCI_BAR_STANDARD`; then the chain
`if (STMicro 0xCC06) … else if (0x1c44:0x8000) … else if (vendor == CAVIUM) { if
(device == 0xa01c) bar = CAVIUM; if (device == 0xa084) bar = CAVIUM_GEN5; else if
(vendor == SONY && device == BAIKAL_AHCI) bar = BAR0_BAIKAL; }`. The last `else if`
stands inside the braces of the Cavium branch, as the `else` of the `0xa084` test. -/
def ahci_pci_bar (K : AhciDefs) (vendor device : Nat) : Nat :=
  let bar0 := AHCI_PCI_BAR_STANDARD
  if vendor = K.PCI_VENDOR_ID_STMICRO ∧ device = 0xCC06 then AHCI_PCI_BAR_STA2X11
  else if vendor = 0x1c44 ∧ device = 0x8000 then AHCI_PCI_BAR_ENMOTUS
  else if vendor = K.PCI_VENDOR_ID_CAVIUM then
    let bar1 := if device = 0xa01c then AHCI_PCI_BAR_CAVIUM else bar0
    if device = 0xa084 then AHCI_PCI_BAR_CAVIUM_GEN5
    else if vendor = K.PCI_VENDOR_ID_SONY ∧ device = K.PCI_DEVICE_ID_SONY_BAIKAL_AHCI then
      AHCI_PCI_BAR0_BAIKAL
    else bar1
  else bar0

/-! ## `bpcie_sata_phy_init`: efuse values, PHY register writes, trace length -/

/-- The efuse values that `bpcie_sata_phy_init` keeps in `v420`, `v421`, `v422`,
`v423`, `v419` and `ivar_out`. -/
structure Efuse where
  v420 : Nat
  v421 : Nat
  v422 : Nat
  v423 : Nat
  v419 : Nat
  ivar_out : Nat
  deriving DecidableEq

/-- The efuse decoding: defaults `v12 = 16, v13 = 40, v14 = 40, v15 = 16, v16 = 16,
v17 = 16`; with bit 18 of `v11` set, `v15 = (v10 >> 6) & 0x1F`, `v14 = v10 & 0x3F`,
`v16 = (u16)v10 >> 11`; with bit 26 of `v11` set, `v13 = (v10 >> 16) & 0x3F`,
`v12 = (v10 >> 22) & 0x1F`, `v17 = v10 >> 27`. Both words are 32-bit reads. -/
def phy_efuse (v10 v11 : Nat) : Efuse :=
  let lo := u32 v11 &&& 0x40000 ≠ 0
  let hi := u32 v11 &&& 0x4000000 ≠ 0
  { v420 := if lo then (u32 v10 >>> 6) &&& 0x1F else 16
    v422 := if lo then u32 v10 &&& 0x3F else 40
    ivar_out := if lo then (u32 v10 % 65536) >>> 11 else 16
    v423 := if hi then (u32 v10 >>> 16) &&& 0x3F else 40
    v421 := if hi then (u32 v10 >>> 22) &&& 0x1F else 16
    v419 := if hi then u32 v10 >>> 27 else 16 }

/-- The value written to PHY register `0x20A0` after reading `v22` from it:
`(v22 & 0xFBFF03FF) | ((bpci_usb_ahci ? v423 : v422) << 10) | 0x4000000`. -/
def phy_write_20A0 (bpci_usb_ahci : Bool) (e : Efuse) (v22 : Nat) : Nat :=
  u32 ((u32 v22 &&& 0xFBFF03FF) ||| ((if bpci_usb_ahci then e.v423 else e.v422) <<< 10)
    ||| 0x4000000)

/-- The value written to PHY register `0x2054` after reading `v36` from it:
`v36 & (0xFFFFF07F | ((bpci_usb_ahci ? v421 : v420) << 7))`. -/
def phy_write_2054 (bpci_usb_ahci : Bool) (e : Efuse) (v36 : Nat) : Nat :=
  u32 (u32 v36 &&& (0xFFFFF07F ||| ((if bpci_usb_ahci then e.v421 else e.v420) <<< 7)))

/-- Bits `lo .. lo + width - 1` of a register value. -/
def bit_field (v lo width : Nat) : Nat := (v >>> lo) % 2 ^ width

/-- The trace length of `bpcie_sata_phy_init` from `ctlr->apcie_bpcie_buffer`:
`bpcie_buffer = (int)b; if (bpcie_buffer) { trace_length = 6;
v55 = (unsigned __int8)bpcie_buffer >> 5; v56 = v55 - 2; if (v55 <= 2) v56 = 0;
v57 = v56 + (b & 0x1F); if (v57 <= 0x12) trace_length = v57; … }`; with a zero
buffer the function reports the length 6. -/
def phy_trace_length (b : Nat) : Nat :=
  let bpcie_buffer := u32 b
  if bpcie_buffer ≠ 0 then
    let v55 := (bpcie_buffer % 256) >>> 5
    let v56 := if v55 ≤ 2 then 0 else v55 - 2
    let v57 := u32 (v56 + (b &&& 0x1F))
    if v57 ≤ 0x12 then v57 else 6
  else 6

/-- The tuning sequences among which `bpcie_sata_phy_init` chooses: the four groups
of `case` labels of the `switch (trace_length)`, its `default`, named by where the
code continues. -/
inductive PhySequence where
  | case_0_1_2
  | case_3_4_5
  | label_45
  | case_9_to_12
  | default_case
  deriving DecidableEq

/-- The sequence chosen: with a non-zero buffer the `switch (trace_length)`, whose
cases 6, 7 and 8 are `goto LABEL_45`; with a zero buffer the code after the `if`,
which runs into `LABEL_45`. -/
def phy_sequence (b : Nat) : PhySequence :=
  if u32 b ≠ 0 then
    let trace_length := phy_trace_length b
    if trace_length ≤ 2 then PhySequence.case_0_1_2
    else if trace_length ≤ 5 then PhySequence.case_3_4_5
    else if trace_length ≤ 8 then PhySequence.label_45
    else if trace_length ≤ 0xC then PhySequence.case_9_to_12
    else PhySequence.default_case
  else PhySequence.label_45

/-! ## Further environments for closed examples -/

/-- The environment of the closed examples, but `pci_alloc_irq_vectors` grants 16 of
the 32 vectors asked for (the minimum asked for is 4). -/
def sample_env_16_vectors : BpcieEnv :=
  { sample_bpcie_env with pci_alloc_irq_vectors := fun _ _ => 16 }

/-- The environment of the closed examples, but the second serial port fails to
register with `-28`. -/
def sample_env_uart1_fails : BpcieEnv :=
  { sample_bpcie_env with
    serial8250_register_8250_port := fun i => if i = 1 then -28 else 4 }

/-- The device state that `bpcie_probe` hands to `bpcie_glue_init` when the three BARs
are mapped. -/
def sample_sc : BpcieDev :=
  { bar0 := true, bar2 := true, bar4 := true, irqdomain := false, nvec := 0,
    serial_line := [0, 0] }

/-- An xHCI environment for closed examples on a device that is not the Aeolia xHCI:
three IRQs are assigned and every call succeeds; `ahci_init_one` returns 0 and has set
`bus_master`. -/
def sample_xhci_env_ok : XhciEnv :=
  { apcie_status := 1, pci_enable_device := 0, devm_kzalloc := true,
    apcie_assign_irqs := fun nvec => nvec, pci_set_dma_mask := 0,
    pci_set_consistent_dma_mask := 0, ahci_init_one := 0, bus_master := true,
    device := 0x90db, xhci_aeolia_probe_one := fun _ => 0 }

/-- The same environment, but `pci_set_dma_mask` fails with `-5`. -/
def sample_xhci_env_dma_fails : XhciEnv :=
  { sample_xhci_env_ok with pci_set_dma_mask := -5 }

/-- The same environment, but the host controller of index 2 fails with `-12`. -/
def sample_xhci_env_hcd2_fails : XhciEnv :=
  { sample_xhci_env_ok with xhci_aeolia_probe_one := fun idx => if idx = 2 then -12 else 0 }

/-! ## `bpcie_remove` -/

/-- Calls made by `bpcie_remove`: `bpcie_icc_remove(sc)`, defined in another file of
the driver, and the calls of the kinds that the probe path makes. -/
inductive RemoveCall where
  | bpcie_icc_remove
  | call (c : ProbeCall)
  deriving DecidableEq

/-- What `bpcie_remove` leaves behind: the device state (`none` once freed), whether
the driver data pointer of the device is still set, the flags, `bpcie_initialized`,
and the calls made. -/
structure RemoveResult where
  sc : Option BpcieDev
  drvdata : Bool
  flags : Nat
  bpcie_initialized : Bool
  trace : List RemoveCall

/-- `bpcie_remove(dev)` on the state `sc = pci_get_drvdata(dev)`:
`bpcie_icc_remove(sc); bpcie_uart_remove(sc); bpcie_glue_remove(sc);`, the three
`iounmap` calls, `kfree(sc); pci_disable_device(dev);`. The function neither calls
`pci_set_drvdata` nor assigns `bpcie_initialized`. -/
def bpcie_remove (env : BpcieEnv) (sc : BpcieDev) (flags : Nat) (initialized : Bool) :
    RemoveResult :=
  let ur := bpcie_uart_remove sc flags
  let rm := bpcie_glue_remove env ur.sc ur.flags
  { sc := none, drvdata := true, flags := rm.flags, bpcie_initialized := initialized,
    trace := RemoveCall.bpcie_icc_remove
      :: (ur.trace ++ rm.trace ++ probe_free_bars rm.sc).map RemoveCall.call }

/-- The glue device as a sibling finds it with `pci_get_slot`: function 4 of the slot,
with the Sony vendor id and the Baikal PCIe device id; `drvdata` tells whether
`pci_get_drvdata` gives a non-`NULL` pointer. -/
def glue_pci_dev (K : KernelDefs) (slot : Nat) (drvdata : Bool) : PciDev :=
  { vendor := K.PCI_VENDOR_ID_SONY, device := K.PCI_DEVICE_ID_SONY_BAIKAL_PCIE,
    devfn := slot * 8 + BAIKAL_FUNC_ID_PCIE, msi_enabled := true, drvdata := drvdata }

/-! ## `xhci_aeolia_suspend` and `xhci_aeolia_resume` -/

/-- Steps of the power-management callbacks: `hcd_to_xhci(axhci->hcd[idx])`, which
dereferences the pointer (`hcd` tells whether it is non-`NULL`), `xhci_suspend` and
`xhci_resume` on the result, with the value returned. -/
inductive PmCall where
  | hcd_to_xhci (idx : Nat) (hcd : Bool)
  | xhci_suspend (idx : Nat) (ret : Int)
  | xhci_resume (idx : Nat) (ret : Int)
  deriving DecidableEq

/-- The state and the answers that the callbacks meet: `pdev->device`, whether
`axhci->hcd[idx]` is non-`NULL`, and the values of `xhci_suspend` and `xhci_resume`
for each index. -/
structure PmEnv where
  device : Nat
  hcd : Nat → Bool
  xhci_suspend : Nat → Int
  xhci_resume : Nat → Int

/-- The `for` loop of `xhci_aeolia_suspend`, at `idx` with `todo` iterations left:
index 1 is skipped on a device that is not the Aeolia xHCI; a negative `retval`
leaves the loop (`goto resume`) with that value and the index. -/
def xhci_suspend_loop (K : ProbeDefs) (env : PmEnv) :
    Nat → Nat → List PmCall × Option (Int × Nat)
  | 0, _ => ([], none)
  | todo + 1, idx =>
      if env.device ≠ K.PCI_DEVICE_ID_SONY_AEOLIA_XHCI ∧ idx = 1 then
        xhci_suspend_loop K env todo (idx + 1)
      else if env.xhci_suspend idx < 0 then
        ([PmCall.hcd_to_xhci idx (env.hcd idx), PmCall.xhci_suspend idx (env.xhci_suspend idx)],
         some (env.xhci_suspend idx, idx))
      else
        (PmCall.hcd_to_xhci idx (env.hcd idx)
          :: PmCall.xhci_suspend idx (env.xhci_suspend idx)
          :: (xhci_suspend_loop K env todo (idx + 1)).1,
         (xhci_suspend_loop K env todo (idx + 1)).2)

/-- The loop at the label `resume:` of `xhci_aeolia_suspend`:
`while (idx--) { xhci = hcd_to_xhci(axhci->hcd[idx]); xhci_resume(xhci, 0); }`. -/
def xhci_suspend_rollback (env : PmEnv) : Nat → List PmCall
  | 0 => []
  | idx + 1 =>
      PmCall.hcd_to_xhci idx (env.hcd idx) :: PmCall.xhci_resume idx (env.xhci_resume idx)
        :: xhci_suspend_rollback env idx

/-- `xhci_aeolia_suspend(dev)`: the value returned and the steps made. -/
def xhci_aeolia_suspend (K : ProbeDefs) (env : PmEnv) : Int × List PmCall :=
  match (xhci_suspend_loop K env NR_DEVICES 0).2 with
  | none => (0, (xhci_suspend_loop K env NR_DEVICES 0).1)
  | some (retval, idx) =>
      (retval, (xhci_suspend_loop K env NR_DEVICES 0).1 ++ xhci_suspend_rollback env idx)

/-- The `for` loop of `xhci_aeolia_resume`, at `idx` with `todo` iterations left; a
negative `retval` is returned at once. -/
def xhci_resume_loop (K : ProbeDefs) (env : PmEnv) : Nat → Nat → Int × List PmCall
  | 0, _ => (0, [])
  | todo + 1, idx =>
      if env.device ≠ K.PCI_DEVICE_ID_SONY_AEOLIA_XHCI ∧ idx = 1 then
        xhci_resume_loop K env todo (idx + 1)
      else if env.xhci_resume idx < 0 then
        (env.xhci_resume idx,
         [PmCall.hcd_to_xhci idx (env.hcd idx), PmCall.xhci_resume idx (env.xhci_resume idx)])
      else
        ((xhci_resume_loop K env todo (idx + 1)).1,
         PmCall.hcd_to_xhci idx (env.hcd idx)
          :: PmCall.xhci_resume idx (env.xhci_resume idx)
          :: (xhci_resume_loop K env todo (idx + 1)).2)

/-- `xhci_aeolia_resume(dev)`: the value returned and the steps made. -/
def xhci_aeolia_resume (K : ProbeDefs) (env : PmEnv) : Int × List PmCall :=
  xhci_resume_loop K env NR_DEVICES 0

/-- Whether `axhci->hcd[idx]` is non-`NULL` after `xhci_aeolia_probe` has returned 0:
the array is zeroed by `devm_kzalloc`, and `xhci_aeolia_probe_one(dev, idx)` stores
the host controller in `axhci->hcd[idx]` when it returns 0. -/
def hcd_after_probe (K : ProbeDefs) (env : XhciEnv) (idx : Nat) : Bool :=
  decide ((xhci_aeolia_probe K env).1 = 0) &&
  decide (XhciCall.xhci_aeolia_probe_one idx ∈ (xhci_aeolia_probe K env).2)

/-- The indices whose `hcd` pointer was `NULL` when it was dereferenced. -/
def null_derefs : List PmCall → List Nat
  | [] => []
  | PmCall.hcd_to_xhci idx false :: rest => idx :: null_derefs rest
  | _ :: rest => null_derefs rest

/-- The state left by the successful probe of `sample_xhci_env_ok`, in which
suspending the host controller of index 2 fails with `-16`. -/
def sample_pm_env : PmEnv :=
  { device := sample_xhci_env_ok.device,
    hcd := hcd_after_probe sample_probe_defs sample_xhci_env_ok,
    xhci_suspend := fun idx => if idx = 2 then -16 else 0,
    xhci_resume := fun _ => 0 }

/-! ## Lemmas on 32-bit words -/

theorem u32_of_lt {x : Nat} (h : x < 4294967296) : u32 x = x := by
  unfold u32; exact Nat.mod_eq_of_lt h

theorem u32_lt (x : Nat) : u32 x < 4294967296 := by
  unfold u32; exact Nat.mod_lt _ (by decide)

theorem testBit_u32 (x i : Nat) : (u32 x).testBit i = (decide (i < 32) && x.testBit i) := by
  unfold u32
  exact Nat.testBit_mod_two_pow x 32 i

theorem testBit_ones32 (i : Nat) : (0xFFFFFFFF : Nat).testBit i = decide (i < 32) :=
  Nat.testBit_two_pow_sub_one 32 i

theorem testBit_not32 (x i : Nat) :
    (not32 x).testBit i = (decide (i < 32) && !x.testBit i) := by
  unfold not32
  rw [Nat.testBit_xor, testBit_ones32, testBit_u32]
  by_cases h : i < 32 <;> simp [h]

theorem testBit_false_of_lt32 {x i : Nat} (hx : x < 4294967296) (hi : 32 ≤ i) :
    x.testBit i = false := by
  apply Nat.testBit_lt_two_pow
  calc x < 2 ^ 32 := hx
    _ ≤ 2 ^ i := Nat.pow_le_pow_right (by decide) hi

theorem one_shl_lt {i : Nat} (hi : i < 32) : 1 <<< i < 4294967296 := by
  rw [Nat.one_shiftLeft]
  calc 2 ^ i < 2 ^ 32 := Nat.pow_lt_pow_right (by decide) hi
    _ = 4294967296 := by norm_num

theorem testBit_one_shl (k i : Nat) : (1 <<< k).testBit i = decide (k = i) := by
  rw [Nat.one_shiftLeft, Nat.testBit_two_pow]

theorem and_one_shl_ne_zero (p : Nat) {i : Nat} (hi : i < 32) :
    (p &&& u32 (1 <<< i) ≠ 0) ↔ p.testBit i = true := by
  rw [u32_of_lt (one_shl_lt hi), Nat.one_shiftLeft, Nat.and_two_pow]
  cases h : p.testBit i <;> simp [Bool.toNat]

/-! ## Lemmas on hardware IRQ numbers -/

theorem testBit_high_mask (i : Nat) :
    (0xFFFFFFFFFFFFFFE0 : Nat).testBit i = (decide (5 ≤ i) && decide (i < 64)) := by
  have h : (0xFFFFFFFFFFFFFFE0 : Nat) = 2 ^ 5 * (2 ^ 59 - 1) := by norm_num
  rw [h, Nat.testBit_mul_pow_two, Nat.testBit_two_pow_sub_one]
  by_cases h5 : 5 ≤ i
  · have : (i - 5 < 59) ↔ (i < 64) := by omega
    simp [h5, this]
  · simp [h5]

theorem testBit_hwirq_initial (h i : Nat) :
    (hwirq_initial h).testBit i = (decide (5 ≤ i) && decide (i < 32) && h.testBit i) := by
  unfold hwirq_initial
  rw [testBit_u32, Nat.testBit_and, testBit_high_mask]
  by_cases h5 : 5 ≤ i <;> by_cases h32 : i < 32 <;> simp [h5, h32]
  intro _; omega

theorem hwirq_initial_lt (h : Nat) : hwirq_initial h < 4294967296 := u32_lt _

theorem hwirq_initial_mod (h : Nat) : hwirq_initial h % 32 = 0 := by
  have e : hwirq_initial h % 32 = hwirq_initial h &&& (2 ^ 5 - 1) := by
    rw [Nat.and_pow_two_sub_one_eq_mod]
  rw [e]
  apply Nat.eq_of_testBit_eq
  intro i
  rw [Nat.testBit_and, testBit_hwirq_initial, Nat.testBit_two_pow_sub_one, Nat.zero_testBit]
  by_cases h5 : 5 ≤ i
  · have : ¬ i < 5 := by omega
    simp [this]
  · simp [h5]

theorem add_eq_or_of_mod {b i : Nat} (hb : b % 32 = 0) (hi : i < 32) : b + i = b ||| i := by
  have hb2 : b = 2 ^ 5 * (b / 32) := by
    have := Nat.div_add_mod b 32
    norm_num
    omega
  rw [hb2]
  exact Nat.mul_add_lt_is_or (by simpa using hi) (b / 32)

theorem hwirq_initial_add (h : Nat) {i : Nat} (hi : i < 32) :
    u32 (hwirq_initial h + i) = hwirq_initial h ||| i := by
  have hlt := hwirq_initial_lt h
  have hm := hwirq_initial_mod h
  rw [← add_eq_or_of_mod hm hi]
  apply u32_of_lt
  omega

/-! ## The dispatch loop -/

theorem dispatched_append (a b : List Event) :
    dispatched (a ++ b) = dispatched a ++ dispatched b := by
  induction a with
  | nil => rfl
  | cons e rest ih => cases e <;> simp [dispatched, ih]

theorem looked_up_append (a b : List Event) :
    looked_up (a ++ b) = looked_up a ++ looked_up b := by
  induction a with
  | nil => rfl
  | cons e rest ih => cases e <;> simp [looked_up, ih]

theorem fanout_body_dispatched (dom : IrqDomain) (h p : Nat) {i : Nat} (hi : i < 32) :
    dispatched (fanout_body dom (hwirq_initial h) p i)
      = (dispatch_target dom (hwirq_initial h) p i).toList := by
  unfold fanout_body dispatch_target
  by_cases hb : p.testBit i = true
  · rw [if_pos ((and_one_shl_ne_zero p hi).mpr hb), if_pos hb]
    simp only [hwirq_initial_add h hi]
    cases dom.irq_to_desc (dom.irq_find_mapping (hwirq_initial h ||| i)) <;>
      simp [dispatched, Option.toList]
  · rw [if_neg (fun hne => hb ((and_one_shl_ne_zero p hi).mp hne)), if_neg hb]
    simp [dispatched, Option.toList]

theorem fanout_body_looked_up (dom : IrqDomain) (h p : Nat) {i : Nat} (hi : i < 32) :
    looked_up (fanout_body dom (hwirq_initial h) p i)
      = if p.testBit i then [hwirq_initial h ||| i] else [] := by
  unfold fanout_body
  by_cases hb : p.testBit i = true
  · rw [if_pos ((and_one_shl_ne_zero p hi).mpr hb), if_pos hb]
    simp only [hwirq_initial_add h hi]
    cases dom.irq_to_desc (dom.irq_find_mapping (hwirq_initial h ||| i)) <;>
      simp [looked_up]
  · rw [if_neg (fun hne => hb ((and_one_shl_ne_zero p hi).mp hne)), if_neg hb]
    simp [looked_up]

theorem fanout_loop_dispatched (dom : IrqDomain) (h p : Nat) :
    ∀ (todo i : Nat), i + todo ≤ 32 →
      dispatched (fanout_loop dom (hwirq_initial h) p todo i)
        = (List.range' i todo).filterMap (dispatch_target dom (hwirq_initial h) p) := by
  intro todo
  induction todo with
  | zero => intro i _; simp [fanout_loop, dispatched]
  | succ n ih =>
      intro i hi
      rw [fanout_loop, dispatched_append, fanout_body_dispatched dom h p (by omega),
        ih (i + 1) (by omega), List.range'_succ, List.filterMap_cons]
      cases dispatch_target dom (hwirq_initial h) p i <;> simp [Option.toList]

theorem fanout_loop_looked_up (dom : IrqDomain) (h p : Nat) :
    ∀ (todo i : Nat), i + todo ≤ 32 →
      looked_up (fanout_loop dom (hwirq_initial h) p todo i)
        = ((List.range' i todo).filter (fun j => p.testBit j)).map
            (fun j => hwirq_initial h ||| j) := by
  intro todo
  induction todo with
  | zero => intro i _; simp [fanout_loop, looked_up]
  | succ n ih =>
      intro i hi
      rw [fanout_loop, looked_up_append, fanout_body_looked_up dom h p (by omega),
        ih (i + 1) (by omega), List.range'_succ, List.filter_cons]
      by_cases hb : p.testBit i = true <;> simp [hb]

theorem filterMap_dispatch_target (dom : IrqDomain) (base p : Nat) (l : List Nat) :
    l.filterMap (dispatch_target dom base p)
      = (l.filter (fun j => p.testBit j)).filterMap
          (fun i => dom.irq_to_desc (dom.irq_find_mapping (base ||| i))) := by
  induction l with
  | nil => rfl
  | cons a rest ih =>
      by_cases hb : p.testBit a = true
      · have hd : dispatch_target dom base p a
            = dom.irq_to_desc (dom.irq_find_mapping (base ||| a)) := by
          simp [dispatch_target, hb]
        rw [List.filterMap_cons, List.filter_cons, if_pos hb, List.filterMap_cons, hd, ih]
      · have hd : dispatch_target dom base p a = none := by
          simp [dispatch_target, hb]
        rw [List.filterMap_cons, List.filter_cons, if_neg hb, hd, ih]

theorem handler_trace_of_cfg (dom : IrqDomain) (desc : IrqDesc) (r : Nat) (cfg : FanoutCfg)
    (hc : fanout_cfg (hwirq_func desc.hwirq) = some cfg) :
    bpcie_handle_edge_irq dom desc r =
      { pending := some (subfunc_mask cfg.mask cfg.shift (u32 r)),
        trace :=
          [Event.raw_spin_lock,
           Event.glue_write32 BPCIE_ACK_WRITE cfg.vector_to_write,
           Event.glue_read32 BPCIE_ACK_READ,
           Event.raw_spin_unlock]
          ++ fanout_loop dom (hwirq_initial desc.hwirq)
              (subfunc_mask cfg.mask cfg.shift (u32 r)) 32 0 } := by
  unfold bpcie_handle_edge_irq
  simp only [hc]

theorem not32_eq_xor {x : Nat} (hx : x < 4294967296) : not32 x = 0xFFFFFFFF ^^^ x := by
  unfold not32; rw [u32_of_lt hx]

theorem shiftRight_lt32 {r : Nat} (hr : r < 4294967296) (s : Nat) : r >>> s < 4294967296 := by
  rw [Nat.shiftRight_eq_div_pow]
  exact lt_of_le_of_lt (Nat.div_le_self _ _) hr

/-! ## Claims on the fan-out handler -/

/-- C1: for a fan-out function and a 32-bit status readback `r`, the handler
`bpcie_handle_edge_irq` computes the pending set `function_mask & ~(r >> shift)` with
the constant pair `(0xFFFFFFFF, 0)` for function 4, `(3, 0)` for function 5 and
`(7, 16)` for function 7; the domain and the other fields of the descriptor do not
influence it. -/
theorem pending_mask_per_function (dom : IrqDomain) (desc : IrqDesc) (r : Nat)
    (hr : r < 4294967296) :
    (hwirq_func desc.hwirq = 4 →
      (bpcie_handle_edge_irq dom desc r).pending
        = some (0xFFFFFFFF &&& (0xFFFFFFFF ^^^ (r >>> 0)))) ∧
    (hwirq_func desc.hwirq = 5 →
      (bpcie_handle_edge_irq dom desc r).pending
        = some (3 &&& (0xFFFFFFFF ^^^ (r >>> 0)))) ∧
    (hwirq_func desc.hwirq = 7 →
      (bpcie_handle_edge_irq dom desc r).pending
        = some (7 &&& (0xFFFFFFFF ^^^ (r >>> 16)))) ∧
    (∀ (dom2 : IrqDomain) (desc2 : IrqDesc),
      hwirq_func desc2.hwirq = hwirq_func desc.hwirq →
      (bpcie_handle_edge_irq dom2 desc2 r).pending
        = (bpcie_handle_edge_irq dom desc r).pending) := by
  refine ⟨?_, ?_, ?_, ?_⟩
  · intro hf
    have hc : fanout_cfg (hwirq_func desc.hwirq) = some ⟨2, u32 0xFFFFFFFF, 0⟩ := by
      rw [hf]; rfl
    rw [handler_trace_of_cfg dom desc r _ hc]
    simp only [subfunc_mask, u32_of_lt hr, not32_eq_xor (shiftRight_lt32 hr 0)]
    rfl
  · intro hf
    have hc : fanout_cfg (hwirq_func desc.hwirq) = some ⟨3, 3, 0⟩ := by
      rw [hf]; rfl
    rw [handler_trace_of_cfg dom desc r _ hc]
    simp only [subfunc_mask, u32_of_lt hr, not32_eq_xor (shiftRight_lt32 hr 0)]
  · intro hf
    have hc : fanout_cfg (hwirq_func desc.hwirq) = some ⟨3, 7, 0x10⟩ := by
      rw [hf]; rfl
    rw [handler_trace_of_cfg dom desc r _ hc]
    simp only [subfunc_mask, u32_of_lt hr, not32_eq_xor (shiftRight_lt32 hr 16)]
  · intro dom2 desc2 hf
    unfold bpcie_handle_edge_irq
    simp only [hf]
    cases fanout_cfg (hwirq_func desc.hwirq) <;> rfl

/-- Witness of C1: function 4 of slot 20 (`hwirq = 0x1480`) with the readback `0x224`
has the pending set `0xFFFFFDDB`. -/
theorem pending_mask_per_function_witness :
    (0x224 : Nat) < 4294967296 ∧
    (bpcie_handle_edge_irq sample_domain ⟨0x14C0, 0x1480⟩ 0x224).pending = some 0xFFFFFDDB :=
  ⟨by decide,
   (pending_mask_per_function sample_domain ⟨0x14C0, 0x1480⟩ 0x224 (by decide)).1 (by decide)⟩

/-- C2: in a fan-out run with pending mask `p`, the edge handler is dispatched once for
each `i` in `0..31` with bit `i` set in `p` whose number resolves to a descriptor, in
ascending `i`, and for no other `i`; the number looked up for bit `i` is
`base_hwirq | i`, equal to the `base_hwirq + i` of the code, where `base_hwirq` is
`h & ~0x1f` (for the 32-bit values of `h` that the `u32` local can hold). -/
theorem fanout_dispatch_order (dom : IrqDomain) (desc : IrqDesc) (r p : Nat)
    (hp : (bpcie_handle_edge_irq dom desc r).pending = some p) :
    dispatched (bpcie_handle_edge_irq dom desc r).trace
      = (List.range 32).filterMap (fun i =>
          if p.testBit i then
            dom.irq_to_desc (dom.irq_find_mapping (hwirq_initial desc.hwirq ||| i))
          else none) ∧
    looked_up (bpcie_handle_edge_irq dom desc r).trace
      = ((List.range 32).filter (fun i => p.testBit i)).map
          (fun i => hwirq_initial desc.hwirq ||| i) ∧
    (∀ i, i < 32 → u32 (hwirq_initial desc.hwirq + i) = hwirq_initial desc.hwirq ||| i) ∧
    (desc.hwirq < 4294967296 →
      hwirq_initial desc.hwirq = desc.hwirq &&& (0xFFFFFFFF ^^^ 0x1f)) := by
  cases hc : fanout_cfg (hwirq_func desc.hwirq) with
  | none =>
      have : (bpcie_handle_edge_irq dom desc r).pending = none := by
        unfold bpcie_handle_edge_irq; simp only [hc]
      rw [this] at hp
      cases hp
  | some cfg =>
      rw [handler_trace_of_cfg dom desc r cfg hc] at hp ⊢
      simp only [Option.some.injEq] at hp
      refine ⟨?_, ?_, ?_, ?_⟩
      · simp only [hp]
        rw [dispatched_append, fanout_loop_dispatched dom desc.hwirq p 32 0 (by omega),
          List.range_eq_range']
        simp [dispatched, dispatch_target]
        rfl
      · simp only [hp]
        rw [looked_up_append, fanout_loop_looked_up dom desc.hwirq p 32 0 (by omega),
          List.range_eq_range']
        simp [looked_up]
      · intro i hi
        exact hwirq_initial_add desc.hwirq hi
      · intro hlt
        apply Nat.eq_of_testBit_eq
        intro i
        have e : (0xFFFFFFFF ^^^ 0x1f : Nat) = 2 ^ 5 * (2 ^ 27 - 1) := by decide
        rw [testBit_hwirq_initial, Nat.testBit_and, e, Nat.testBit_mul_pow_two,
          Nat.testBit_two_pow_sub_one]
        by_cases h5 : 5 ≤ i <;> by_cases h32 : i < 32
        · have : i - 5 < 27 := by omega
          simp [h5, h32, this]
        · have : desc.hwirq.testBit i = false :=
            testBit_false_of_lt32 hlt (by omega)
          simp [h32, this]
        · simp [h5]
        · simp [h5]

/-- Witness of C2: function 4 of slot 20 with the readback `0xFFFFFFDB` has the pending
set `0x24`, and the run dispatches the descriptors of `0x1482` and `0x1485`, in this
order. -/
theorem fanout_dispatch_order_witness :
    (bpcie_handle_edge_irq sample_domain ⟨0x14C0, 0x1480⟩ 0xFFFFFFDB).pending = some 0x24 ∧
    dispatched (bpcie_handle_edge_irq sample_domain ⟨0x14C0, 0x1480⟩ 0xFFFFFFDB).trace
      = [⟨0x14C2, 0x1482⟩, ⟨0x14C5, 0x1485⟩] :=
  ⟨by decide,
   (fanout_dispatch_order sample_domain ⟨0x14C0, 0x1480⟩ 0xFFFFFFDB 0x24 (by decide)).1.trans
     (by decide)⟩

/-- C3, as stated, fails: with `shift = 0`, `mask = 0x1F` and the readback `0x224`
(bits 2, 5 and 9) the loop does not dispatch the subfunctions `[2, 5]`. -/
theorem scenario_2_5_9_counterexample :
    (looked_up (fanout_loop sample_domain 0x1480 (subfunc_mask 0x1F 0 0x224) 32 0)).map
      get_subfunc ≠ [2, 5] := by
  decide

/-- C3, amended: with `shift = 0`, `mask = 0x1F` and the readback `0x224` (bits 2, 5
and 9) the pending mask is `0x1B`, and the loop looks up and dispatches the
subfunctions 0, 1, 3 and 4: the bits of the mask that are clear in the readback. Bits
5 and 9 are outside the mask. -/
theorem scenario_2_5_9_dispatch (dom : IrqDomain) (h : Nat) :
    subfunc_mask 0x1F 0 0x224 = 0x1B ∧
    looked_up (fanout_loop dom (hwirq_initial h) (subfunc_mask 0x1F 0 0x224) 32 0)
      = [0, 1, 3, 4].map (fun i => hwirq_initial h ||| i) ∧
    dispatched (fanout_loop dom (hwirq_initial h) (subfunc_mask 0x1F 0 0x224) 32 0)
      = [0, 1, 3, 4].filterMap
          (fun i => dom.irq_to_desc (dom.irq_find_mapping (hwirq_initial h ||| i))) := by
  have hm : subfunc_mask 0x1F 0 0x224 = 0x1B := by decide
  refine ⟨hm, ?_, ?_⟩
  · rw [hm, fanout_loop_looked_up dom h 0x1B 32 0 (by omega)]
    have : (List.range' 0 32).filter (fun j => (0x1B : Nat).testBit j) = [0, 1, 3, 4] := by
      decide
    rw [this]
  · rw [hm, fanout_loop_dispatched dom h 0x1B 32 0 (by omega), filterMap_dispatch_target]
    have : (List.range' 0 32).filter (fun j => (0x1B : Nat).testBit j) = [0, 1, 3, 4] := by
      decide
    rw [this]

/-! ## The bit loops -/

theorem s32_of_lt {x : Nat} (h : x < 2147483648) : s32 x = (x : Int) := by
  unfold s32
  have e : u32 x = x := u32_of_lt (by omega)
  rw [e, if_pos h]

theorem run_bits_zero (s : Nat) : run_bits s 0 = 0 := rfl

theorem run_bits_succ (s n : Nat) :
    run_bits s (n + 1) = run_bits s n ||| 1 <<< ((s + n) % 32) := by
  unfold run_bits
  rw [List.range_succ, List.foldl_append]
  rfl

theorem testBit_run_bits (s n b : Nat) :
    (run_bits s n).testBit b = true ↔ ∃ i, i < n ∧ (s + i) % 32 = b := by
  induction n with
  | zero => simp [run_bits_zero]
  | succ n ih =>
      rw [run_bits_succ, Nat.testBit_or, Bool.or_eq_true, ih, testBit_one_shl]
      constructor
      · rintro (⟨i, hi, e⟩ | e)
        · exact ⟨i, by omega, e⟩
        · exact ⟨n, by omega, by simpa using e⟩
      · rintro ⟨i, hi, e⟩
        by_cases h : i = n
        · right; subst h; simpa using e
        · left; exact ⟨i, by omega, e⟩

theorem msi_mask_asm_run (n s m : Nat) (hn : n < 2147483648) (hs : s < 32) :
    ∀ (steps j : Nat), j < n → n - j ≤ steps →
      msi_mask_asm n s steps j (m ||| run_bits s j) = some (m ||| run_bits s n) := by
  intro steps
  induction steps with
  | zero => intro j hj hsteps; omega
  | succ k ih =>
      intro j hj hsteps
      have hecx : u32 (s + j) = s + j := u32_of_lt (by omega)
      have hesi : u32 (j + 1) = j + 1 := u32_of_lt (by omega)
      have hcl : (s + j) % 256 % 32 = (s + j) % 32 := by omega
      have hbit : u32 (1 <<< ((s + j) % 32)) = 1 <<< ((s + j) % 32) :=
        u32_of_lt (one_shl_lt (Nat.mod_lt _ (by decide)))
      have hacc : m ||| run_bits s j ||| 1 <<< ((s + j) % 32) = m ||| run_bits s (j + 1) := by
        rw [run_bits_succ, Nat.lor_assoc]
      unfold msi_mask_asm
      simp only [hecx, hesi, hcl, hbit, hacc, s32_of_lt hn,
        s32_of_lt (show j + 1 < 2147483648 by omega)]
      by_cases hlast : j + 1 < n
      · rw [if_pos (by exact_mod_cast hlast)]
        exact ih (j + 1) hlast (by omega)
      · rw [if_neg (by exact_mod_cast hlast)]
        have : j + 1 = n := by omega
        rw [this]

theorem bpcie_msi_mask_word_eq (steps s m n : Nat) (hs : s < 32) (hn : n < 2147483648)
    (hm : m < 4294967296) (hsteps : n ≤ steps) :
    bpcie_msi_mask_word steps s m n = some (m ||| run_bits s n) := by
  unfold bpcie_msi_mask_word
  rw [u32_of_lt (show n < 4294967296 by omega), u32_of_lt (show s < 4294967296 by omega),
    u32_of_lt hm]
  by_cases h0 : n > 0
  · rw [if_pos h0]
    have := msi_mask_asm_run n s m hn hs steps 0 h0 (by omega)
    rwa [run_bits_zero, Nat.or_zero] at this
  · rw [if_neg h0]
    have : n = 0 := by omega
    rw [this, run_bits_zero, Nat.or_zero]

/-- C4: for a subfunction index `s < 32`, a vector count `n` and a 32-bit mask word `m`,
the guarded shl/or loop of `bpcie_msi_mask` terminates and yields
`m | OR over i in [0, n) of (1 << ((s + i) mod 32))`; bit `b` of the result is set exactly
when it is set in `m` or `b = (s + i) mod 32` for some `i < n`; the result is `m` when
`n = 0`. The count is below `2^31`: the `jl` of the loop compares signed values. -/
theorem mask_loop_formula (steps s n m : Nat) (hs : s < 32) (hn : n < 2147483648)
    (hm : m < 4294967296) (hsteps : n ≤ steps) :
    bpcie_msi_mask_word steps s m n = some (m ||| run_bits s n) ∧
    (∀ b, (m ||| run_bits s n).testBit b = true ↔
      (m.testBit b = true ∨ ∃ i, i < n ∧ (s + i) % 32 = b)) ∧
    (n = 0 → bpcie_msi_mask_word steps s m n = some m) := by
  refine ⟨bpcie_msi_mask_word_eq steps s m n hs hn hm hsteps, ?_, ?_⟩
  · intro b
    rw [Nat.testBit_or, Bool.or_eq_true, testBit_run_bits]
  · intro h0
    rw [bpcie_msi_mask_word_eq steps s m n hs hn hm hsteps, h0, run_bits_zero, Nat.or_zero]

/-- Witness of C4: subfunction 30 with 3 vectors on the mask word `0x10` wraps around
bit 31 and gives `0xC0000011`. -/
theorem mask_loop_formula_witness :
    (30 < 32 ∧ 3 < 2147483648 ∧ 0x10 < 4294967296 ∧ 3 ≤ 3) ∧
    bpcie_msi_mask_word 3 30 0x10 3 = some 0xC0000011 :=
  ⟨by decide,
   (mask_loop_formula 3 30 3 0x10 (by decide) (by decide) (by decide) (by decide)).1.trans
     (by decide)⟩

/-- C7: for a message whose `address_lo` is 0, `bpcie_msi_write_msg` makes no call and
leaves the world (device and descriptor state) as it was; for a message whose
`address_lo` is not 0, it passes the message, unchanged, to the generic MSI write, once. -/
theorem write_msg_skips_zero_address {σ : Type} (write : IrqData → MsiMsg → σ → σ)
    (data : IrqData) (msg : MsiMsg) (w : σ) :
    (msg.address_lo = 0 → bpcie_msi_write_msg write data msg w = (w, [])) ∧
    (msg.address_lo ≠ 0 →
      (bpcie_msi_write_msg write data msg w).1 = write data msg w ∧
      msg_writes (bpcie_msi_write_msg write data msg w).2 = [(data, msg)]) := by
  constructor
  · intro h0
    unfold bpcie_msi_write_msg
    rw [if_pos h0]
  · intro hne
    unfold bpcie_msi_write_msg
    rw [if_neg hne]
    exact ⟨rfl, rfl⟩

/-- Witness of C7: on a world that counts the generic writes, the message with
`address_lo = 0` leaves the count at 5 and the message with `address_lo = 0xFEE00000`
is written once. -/
theorem write_msg_skips_zero_address_witness :
    ((0 : Nat) = 0 ∧ (0xFEE00000 : Nat) ≠ 0) ∧
    bpcie_msi_write_msg (fun _ _ (w : Nat) => w + 1) ⟨0x14C3, 0x1483, 8⟩ ⟨0, 0, 0⟩ 5
      = (5, []) ∧
    (bpcie_msi_write_msg (fun _ _ (w : Nat) => w + 1) ⟨0x14C3, 0x1483, 8⟩
        ⟨0xFEE00000, 0, 0x30⟩ 5).1 = 6 ∧
    msg_writes (bpcie_msi_write_msg (fun _ _ (w : Nat) => w + 1) ⟨0x14C3, 0x1483, 8⟩
        ⟨0xFEE00000, 0, 0x30⟩ 5).2 = [(⟨0x14C3, 0x1483, 8⟩, ⟨0xFEE00000, 0, 0x30⟩)] :=
  ⟨by decide,
   (write_msg_skips_zero_address (fun _ _ (w : Nat) => w + 1) ⟨0x14C3, 0x1483, 8⟩
      ⟨0, 0, 0⟩ 5).1 rfl,
   ((write_msg_skips_zero_address (fun _ _ (w : Nat) => w + 1) ⟨0x14C3, 0x1483, 8⟩
      ⟨0xFEE00000, 0, 0x30⟩ 5).2 (by decide)).1,
   ((write_msg_skips_zero_address (fun _ _ (w : Nat) => w + 1) ⟨0x14C3, 0x1483, 8⟩
      ⟨0xFEE00000, 0, 0x30⟩ 5).2 (by decide)).2⟩

/-! ## Composition of hardware IRQ numbers -/

theorem hwirq_compose_eq (slot f s : Nat) (hf : f < 8) (hs : s < 32) :
    (slot <<< 8) ||| (f <<< 5) ||| s = slot * 256 + f * 32 + s := by
  rw [Nat.lor_assoc, Nat.shiftLeft_eq, Nat.shiftLeft_eq]
  have h1 : f * 2 ^ 5 ||| s = 2 ^ 5 * f + s := by
    rw [Nat.mul_comm]
    exact (Nat.mul_add_lt_is_or (by simpa using hs) f).symm
  have h2 : slot * 2 ^ 8 ||| (2 ^ 5 * f + s) = 2 ^ 8 * slot + (2 ^ 5 * f + s) := by
    rw [Nat.mul_comm]
    refine (Nat.mul_add_lt_is_or ?_ slot).symm
    norm_num
    omega
  rw [h1, h2]
  norm_num
  omega

theorem get_subfunc_eq (h : Nat) : get_subfunc h = h % 32 := by
  unfold get_subfunc
  have e : (0x1f : Nat) = 2 ^ 5 - 1 := by norm_num
  rw [e, Nat.and_pow_two_sub_one_eq_mod]
  omega

theorem hwirq_func_eq (h : Nat) : hwirq_func h = h / 32 % 8 := by
  unfold hwirq_func
  have e : (7 : Nat) = 2 ^ 3 - 1 := by norm_num
  rw [e, Nat.and_pow_two_sub_one_eq_mod, Nat.shiftRight_eq_div_pow]
  apply u32_of_lt
  have : h / 2 ^ 5 % 2 ^ 3 < 2 ^ 3 := Nat.mod_lt _ (by norm_num)
  omega

theorem hwirq_initial_eq (h : Nat) : hwirq_initial h = h % 4294967296 / 32 * 32 := by
  apply Nat.eq_of_testBit_eq
  intro i
  have e : h % 4294967296 / 32 * 32 = 2 ^ 5 * ((h % 2 ^ 32) >>> 5) := by
    rw [Nat.shiftRight_eq_div_pow]
    norm_num
    omega
  rw [testBit_hwirq_initial, e, Nat.testBit_mul_pow_two, Nat.testBit_shiftRight,
    Nat.testBit_mod_two_pow]
  by_cases h5 : 5 ≤ i
  · have : 5 + (i - 5) = i := by omega
    simp [h5, this]
  · simp [h5]

theorem set_desc_hwirq_eq (K : KernelDefs) (flags devfn : Nat)
    (hslot : K.PCI_SLOT devfn < 16777216) (hfunc : K.PCI_FUNC devfn < 8) :
    (bpcie_msi_domain_set_desc K flags devfn).msi_hwirq
      = K.PCI_SLOT devfn * 256 + K.PCI_FUNC devfn * 32
          + (if flags &&& K.MSI_FLAG_MULTI_PCI_MSI = 0 then 31 else 0) := by
  have hbase : (K.PCI_SLOT devfn <<< 8) ||| (K.PCI_FUNC devfn <<< 5)
      = K.PCI_SLOT devfn * 256 + K.PCI_FUNC devfn * 32 := by
    have := hwirq_compose_eq (K.PCI_SLOT devfn) (K.PCI_FUNC devfn) 0 hfunc (by decide)
    rw [Nat.or_zero] at this
    omega
  have hmulti : u32 (u32 (K.PCI_SLOT devfn <<< 8) ||| u32 (K.PCI_FUNC devfn <<< 5))
      = K.PCI_SLOT devfn * 256 + K.PCI_FUNC devfn * 32 := by
    have a : u32 (K.PCI_SLOT devfn <<< 8) = K.PCI_SLOT devfn <<< 8 := by
      apply u32_of_lt; rw [Nat.shiftLeft_eq]; omega
    have b : u32 (K.PCI_FUNC devfn <<< 5) = K.PCI_FUNC devfn <<< 5 := by
      apply u32_of_lt; rw [Nat.shiftLeft_eq]; omega
    rw [a, b, hbase]
    apply u32_of_lt; omega
  have hshared : (K.PCI_SLOT devfn * 256 + K.PCI_FUNC devfn * 32) ||| 0x1F
      = K.PCI_SLOT devfn * 256 + K.PCI_FUNC devfn * 32 + 31 := by
    have h31 := hwirq_compose_eq (K.PCI_SLOT devfn) (K.PCI_FUNC devfn) 31 hfunc (by decide)
    rw [hbase] at h31
    exact h31
  unfold bpcie_msi_domain_set_desc
  simp only [hmulti]
  by_cases hm : flags &&& K.MSI_FLAG_MULTI_PCI_MSI = 0
  · simp only [if_pos hm, hshared]
  · simp only [if_neg hm, Nat.add_zero]

/-- C8: the number `h = (slot << 8) | (f << 5) | s` with `f < 8` and `s < 32` decodes
with `get_subfunc(h) = s`, `(h >> 5) & 7 = f` and `h & ~0x1f = (slot << 8) | (f << 5)`
(for the slots that fit the 32-bit `initial_hwirq`); and the number that
`bpcie_msi_domain_set_desc` builds for a device has the slot `PCI_SLOT(devfn)` and the
function `PCI_FUNC(devfn)`, in both MSI modes. -/
theorem hwirq_round_trip (slot f s : Nat) (hf : f < 8) (hs : s < 32) :
    get_subfunc ((slot <<< 8) ||| (f <<< 5) ||| s) = s ∧
    hwirq_func ((slot <<< 8) ||| (f <<< 5) ||| s) = f ∧
    (slot < 16777216 →
      hwirq_initial ((slot <<< 8) ||| (f <<< 5) ||| s) = (slot <<< 8) ||| (f <<< 5)) ∧
    (∀ (K : KernelDefs) (flags devfn : Nat),
      K.PCI_SLOT devfn = slot → K.PCI_FUNC devfn = f → slot < 16777216 →
      (bpcie_msi_domain_set_desc K flags devfn).msi_hwirq >>> 8 = slot ∧
      hwirq_func (bpcie_msi_domain_set_desc K flags devfn).msi_hwirq = f) := by
  have hbase : (slot <<< 8) ||| (f <<< 5) = slot * 256 + f * 32 := by
    have := hwirq_compose_eq slot f 0 hf (by decide)
    rw [Nat.or_zero] at this
    omega
  refine ⟨?_, ?_, ?_, ?_⟩
  · rw [get_subfunc_eq, hwirq_compose_eq slot f s hf hs]; omega
  · rw [hwirq_func_eq, hwirq_compose_eq slot f s hf hs]; omega
  · intro hslot
    rw [hwirq_initial_eq, hwirq_compose_eq slot f s hf hs, hbase]; omega
  · intro K flags devfn hS hF hslot
    have hv := set_desc_hwirq_eq K flags devfn (by rw [hS]; exact hslot) (by rw [hF]; exact hf)
    rw [hS, hF] at hv
    rw [hv, hwirq_func_eq, Nat.shiftRight_eq_div_pow]
    by_cases hm : flags &&& K.MSI_FLAG_MULTI_PCI_MSI = 0
    · simp only [if_pos hm]
      constructor <;> omega
    · simp only [if_neg hm]
      constructor <;> omega

/-- Witness of C8: slot 20, function 7 (xHCI), subfunction 2 give `0x14E2`, which
decodes to subfunction 2, function 7 and the base `0x14E0`; the number built for
`devfn = 0xA7` in shared-MSI mode has slot 20 and function 7. -/
theorem hwirq_round_trip_witness :
    ((7 : Nat) < 8 ∧ (2 : Nat) < 32 ∧ (20 : Nat) < 16777216 ∧
      sample_defs.PCI_SLOT 0xA7 = 20 ∧ sample_defs.PCI_FUNC 0xA7 = 7) ∧
    get_subfunc 0x14E2 = 2 ∧ hwirq_func 0x14E2 = 7 ∧ hwirq_initial 0x14E2 = 0x14E0 ∧
    (bpcie_msi_domain_set_desc sample_defs 3 0xA7).msi_hwirq >>> 8 = 20 ∧
    hwirq_func (bpcie_msi_domain_set_desc sample_defs 3 0xA7).msi_hwirq = 7 :=
  ⟨by decide,
   (hwirq_round_trip 20 7 2 (by decide) (by decide)).1,
   (hwirq_round_trip 20 7 2 (by decide) (by decide)).2.1,
   (hwirq_round_trip 20 7 2 (by decide) (by decide)).2.2.1 (by decide),
   (hwirq_round_trip 20 7 2 (by decide) (by decide)).2.2.2 sample_defs 3 0xA7
     (by decide) (by decide) (by decide)⟩

/-! ## Range of the subfunction index -/

theorem mem_looked_up_fanout_loop (dom : IrqDomain) (h p x : Nat)
    (hx : x ∈ looked_up (fanout_loop dom (hwirq_initial h) p 32 0)) :
    ∃ i, i < 32 ∧ p.testBit i = true ∧ x = hwirq_initial h + i := by
  rw [fanout_loop_looked_up dom h p 32 0 (by omega)] at hx
  obtain ⟨i, hi, rfl⟩ := List.mem_map.mp hx
  obtain ⟨hr, hb⟩ := List.mem_filter.mp hi
  have hlt : i < 32 := by
    have := (List.mem_range'_1.mp hr).2
    omega
  refine ⟨i, hlt, by simpa using hb, ?_⟩
  exact (add_eq_or_of_mod (hwirq_initial_mod h) hlt).symm

theorem testBit_subfunc_mask (mask shift r i : Nat) :
    (subfunc_mask mask shift r).testBit i
      = (mask.testBit i && (decide (i < 32) && !r.testBit (shift + i))) := by
  unfold subfunc_mask
  rw [Nat.testBit_and, testBit_not32, Nat.testBit_shiftRight]

theorem testBit_three (i : Nat) : (3 : Nat).testBit i = decide (i < 2) :=
  Nat.testBit_two_pow_sub_one 2 i

theorem testBit_seven (i : Nat) : (7 : Nat).testBit i = decide (i < 3) :=
  Nat.testBit_two_pow_sub_one 3 i

/-- C9, as stated, fails. In shared-MSI mode (the flag `MSI_FLAG_MULTI_PCI_MSI` clear)
the number that `bpcie_msi_domain_set_desc` builds for function 4 of slot 20 is
`0x149F`, with the subfunction index 31, which is not below `subfuncs_per_func[4] = 31`;
and the fan-out dispatch of function 4 with the readback 0 looks up `0x149F` too. -/
theorem subfunc_range_counterexample :
    (bpcie_msi_domain_set_desc sample_defs 3 0xA4).msi_hwirq = 0x149F ∧
    0x149F ∈ looked_up (bpcie_handle_edge_irq sample_domain ⟨0x14C0, 0x1480⟩ 0).trace ∧
    ¬ (get_subfunc 0x149F < subfuncs_per_func.getD (hwirq_func 0x149F) 0) := by
  decide

/-- C9, amended. In multi-MSI mode the number built by `bpcie_msi_domain_set_desc` has
the subfunction index 0, below `subfuncs_per_func[function]`; in shared-MSI mode its
subfunction field is the marker `0x1F`. Every number that the fan-out dispatch looks up
has the function of the interrupting descriptor, and a subfunction index below
`subfuncs_per_func[function]` for the functions 5 and 7, below `BPCIE_NUM_SUBFUNCS`
for the function 4. -/
theorem subfunc_range (K : KernelDefs) (flags devfn : Nat)
    (hslot : K.PCI_SLOT devfn < 16777216) (hfunc : K.PCI_FUNC devfn < 8) :
    (flags &&& K.MSI_FLAG_MULTI_PCI_MSI ≠ 0 →
      get_subfunc (bpcie_msi_domain_set_desc K flags devfn).msi_hwirq = 0 ∧
      get_subfunc (bpcie_msi_domain_set_desc K flags devfn).msi_hwirq
        < subfuncs_per_func.getD
            (hwirq_func (bpcie_msi_domain_set_desc K flags devfn).msi_hwirq) 0) ∧
    (flags &&& K.MSI_FLAG_MULTI_PCI_MSI = 0 →
      get_subfunc (bpcie_msi_domain_set_desc K flags devfn).msi_hwirq = 0x1F) ∧
    (∀ (dom : IrqDomain) (desc : IrqDesc) (r x : Nat),
      x ∈ looked_up (bpcie_handle_edge_irq dom desc r).trace →
      hwirq_func x = hwirq_func desc.hwirq ∧
      (hwirq_func x = 5 ∨ hwirq_func x = 7 →
        get_subfunc x < subfuncs_per_func.getD (hwirq_func x) 0) ∧
      (hwirq_func x = 4 → get_subfunc x < BPCIE_NUM_SUBFUNCS)) := by
  have hv := set_desc_hwirq_eq K flags devfn hslot hfunc
  refine ⟨?_, ?_, ?_⟩
  · intro hmulti
    rw [if_neg hmulti] at hv
    have h0 : get_subfunc (bpcie_msi_domain_set_desc K flags devfn).msi_hwirq = 0 := by
      rw [hv, get_subfunc_eq]; omega
    have hf : hwirq_func (bpcie_msi_domain_set_desc K flags devfn).msi_hwirq
        = K.PCI_FUNC devfn := by
      rw [hv, hwirq_func_eq]; omega
    refine ⟨h0, ?_⟩
    have key : ∀ f, f < 8 → 0 < subfuncs_per_func.getD f 0 := by decide
    have := key _ hfunc
    rewrite [h0, hf]
    exact this
  · intro hshared
    rw [if_pos hshared] at hv
    rw [hv, get_subfunc_eq]
    omega
  · intro dom desc r x hx
    cases hc : fanout_cfg (hwirq_func desc.hwirq) with
    | none =>
        have ht : (bpcie_handle_edge_irq dom desc r).trace = [Event.handle_edge_irq desc] := by
          unfold bpcie_handle_edge_irq; simp only [hc]
        rw [ht] at hx
        simp [looked_up] at hx
    | some cfg =>
        rw [handler_trace_of_cfg dom desc r cfg hc, looked_up_append] at hx
        have hx2 : x ∈ looked_up (fanout_loop dom (hwirq_initial desc.hwirq)
            (subfunc_mask cfg.mask cfg.shift (u32 r)) 32 0) := by
          simpa [looked_up] using hx
        obtain ⟨i, hi, hbit, rfl⟩ := mem_looked_up_fanout_loop dom _ _ _ hx2
        have hm := hwirq_initial_mod desc.hwirq
        have hq := hwirq_initial_eq desc.hwirq
        have hfx : hwirq_func (hwirq_initial desc.hwirq + i) = hwirq_func desc.hwirq := by
          rw [hwirq_func_eq, hwirq_func_eq]; omega
        have hsx : get_subfunc (hwirq_initial desc.hwirq + i) = i := by
          rw [get_subfunc_eq]; omega
        rw [testBit_subfunc_mask] at hbit
        refine ⟨hfx, ?_, ?_⟩
        · rw [hfx, hsx]
          rintro (h5 | h7)
          · rw [h5] at hc ⊢
            have : cfg = ⟨3, 3, 0⟩ := by
              have : fanout_cfg 5 = some ⟨3, 3, 0⟩ := rfl
              rw [this] at hc; exact (Option.some.inj hc).symm
            rw [this, testBit_three] at hbit
            simp only [Bool.and_eq_true, decide_eq_true_eq] at hbit
            have hlt : i < 2 := hbit.1
            simpa [subfuncs_per_func] using hlt
          · rw [h7] at hc ⊢
            have : cfg = ⟨3, 7, 0x10⟩ := by
              have : fanout_cfg 7 = some ⟨3, 7, 0x10⟩ := rfl
              rw [this] at hc; exact (Option.some.inj hc).symm
            rw [this, testBit_seven] at hbit
            simp only [Bool.and_eq_true, decide_eq_true_eq] at hbit
            have hlt : i < 3 := hbit.1
            simpa [subfuncs_per_func] using hlt
        · intro _
          rw [hsx]
          exact hi

/-- Witness of C9 (amended): for the xHCI function of slot 20 (`devfn = 0xA7`) in
multi-MSI mode the number built is `0x14E0`, with subfunction index 0 below the table
entry 3. -/
theorem subfunc_range_witness :
    (sample_defs.PCI_SLOT 0xA7 < 16777216 ∧ sample_defs.PCI_FUNC 0xA7 < 8 ∧
      7 &&& sample_defs.MSI_FLAG_MULTI_PCI_MSI ≠ 0) ∧
    get_subfunc (bpcie_msi_domain_set_desc sample_defs 7 0xA7).msi_hwirq = 0 ∧
    get_subfunc (bpcie_msi_domain_set_desc sample_defs 7 0xA7).msi_hwirq
      < subfuncs_per_func.getD
          (hwirq_func (bpcie_msi_domain_set_desc sample_defs 7 0xA7).msi_hwirq) 0 :=
  ⟨by decide,
   ((subfunc_range sample_defs 7 0xA7 (by decide) (by decide)).1 (by decide)).1,
   ((subfunc_range sample_defs 7 0xA7 (by decide) (by decide)).1 (by decide)).2⟩

/-! ## `bpcie_assign_irqs` -/

/-- C10, at the failing input: in multi-MSI mode, with the glue device probed, a
request of 4 vectors for which `pci_alloc_irq_vectors(dev, 1, 4, PCI_IRQ_MSI)` returns 2
makes `bpcie_assign_irqs` return 2, a value strictly between 1 and `nvec`. -/
theorem assign_irqs_partial_count :
    (bpcie_assign_irqs sample_defs (fun devfn => if devfn = 0xA4 then some sample_glue else none)
      (fun _ _ => 2) 7 sample_xhci 4).1 = 2 ∧
    AssignCall.pci_alloc_irq_vectors 1 4 ∈
      (bpcie_assign_irqs sample_defs
        (fun devfn => if devfn = 0xA4 then some sample_glue else none)
        (fun _ _ => 2) 7 sample_xhci 4).2 ∧
    (1 : Int) < 2 ∧ (2 : Int) < 4 := by
  decide

/-! ## Claims on the error paths of `bpcie_assign_irqs` -/

/-- C11: `bpcie_assign_irqs` returns `-ENODEV` and makes no call of the vector
allocator when function 4 of the slot of the caller is absent, is not the Sony Baikal
PCIe glue device, or has no driver data; in the other cases the value returned is the
(mode-adjusted) count when MSI is already enabled, and else the value of the one
allocator call. -/
theorem assign_irqs_enodev (K : KernelDefs) (pci_get_slot : Nat → Option PciDev)
    (alloc : Int → Int → Int) (flags : Nat) (dev : PciDev) (nvec : Int) :
    ((pci_get_slot ((u32 dev.devfn &&& 0xFFFFFFF8) ||| BAIKAL_FUNC_ID_PCIE) = none ∨
      bpcie_is_compatible_device K
        (pci_get_slot ((u32 dev.devfn &&& 0xFFFFFFF8) ||| BAIKAL_FUNC_ID_PCIE)) = false ∨
      (pci_get_slot ((u32 dev.devfn &&& 0xFFFFFFF8) ||| BAIKAL_FUNC_ID_PCIE)).map
        PciDev.drvdata = some false) →
      (bpcie_assign_irqs K pci_get_slot alloc flags dev nvec).1 = -(K.ENODEV : Int) ∧
      ∀ a b, AssignCall.pci_alloc_irq_vectors a b ∉
        (bpcie_assign_irqs K pci_get_slot alloc flags dev nvec).2) ∧
    ((bpcie_is_compatible_device K
        (pci_get_slot ((u32 dev.devfn &&& 0xFFFFFFF8) ||| BAIKAL_FUNC_ID_PCIE)) = true ∧
      (pci_get_slot ((u32 dev.devfn &&& 0xFFFFFFF8) ||| BAIKAL_FUNC_ID_PCIE)).map
        PciDev.drvdata = some true) →
      (bpcie_assign_irqs K pci_get_slot alloc flags dev nvec).1
        = if dev.msi_enabled then
            (if flags &&& K.MSI_FLAG_MULTI_PCI_MSI = 0 then 1 else nvec)
          else alloc 1 (if flags &&& K.MSI_FLAG_MULTI_PCI_MSI = 0 then 1 else nvec)) := by
  constructor
  · intro h
    simp only [bpcie_assign_irqs]
    generalize pci_get_slot ((u32 dev.devfn &&& 0xFFFFFFF8) ||| BAIKAL_FUNC_ID_PCIE) = sc
      at h ⊢
    cases sc with
    | none => simp [bpcie_is_compatible_device, assign_fail_tail]
    | some sc =>
        by_cases hc : bpcie_is_compatible_device K (some sc) = true
        · have hd : sc.drvdata = false := by
            rcases h with h | h | h
            · cases h
            · rw [hc] at h; cases h
            · simpa using h
          simp [hc, hd, assign_fail_tail]
        · simp [hc, assign_fail_tail]
  · rintro ⟨hc, hd⟩
    simp only [bpcie_assign_irqs]
    generalize pci_get_slot ((u32 dev.devfn &&& 0xFFFFFFF8) ||| BAIKAL_FUNC_ID_PCIE) = sc
      at hc hd ⊢
    simp only [hc, hd, not_true_eq_false, if_false]
    by_cases hm : dev.msi_enabled = true <;> simp [hm]

/-- Witness of C11: when the slot of the xHCI function has no function 4, the result is
`-19` and the only calls are the lookup and the two log calls. -/
theorem assign_irqs_enodev_witness :
    (fun (_ : Nat) => (none : Option PciDev))
        ((u32 sample_xhci.devfn &&& 0xFFFFFFF8) ||| BAIKAL_FUNC_ID_PCIE) = none ∧
    (bpcie_assign_irqs sample_defs (fun _ => none) (fun _ _ => 3) 7 sample_xhci 3).1 = -19 ∧
    ∀ a b, AssignCall.pci_alloc_irq_vectors a b ∉
      (bpcie_assign_irqs sample_defs (fun _ => none) (fun _ _ => 3) 7 sample_xhci 3).2 :=
  ⟨rfl,
   ((assign_irqs_enodev sample_defs (fun _ => none) (fun _ _ => 3) 7 sample_xhci 3).1
      (Or.inl rfl)).1,
   ((assign_irqs_enodev sample_defs (fun _ => none) (fun _ _ => 3) 7 sample_xhci 3).1
      (Or.inl rfl)).2⟩

/-! ## Claims on the handshake of the fan-out handler -/

theorem reg_accesses_append (a b : List Event) :
    reg_accesses (a ++ b) = reg_accesses a ++ reg_accesses b := by
  induction a with
  | nil => rfl
  | cons e rest ih => cases e <;> simp [reg_accesses, ih]

theorem reg_accesses_fanout_body (dom : IrqDomain) (base p i : Nat) :
    reg_accesses (fanout_body dom base p i) = [] := by
  unfold fanout_body
  split
  · dsimp only
    split <;> rfl
  · rfl

theorem reg_accesses_fanout_loop (dom : IrqDomain) (base p : Nat) :
    ∀ (todo i : Nat), reg_accesses (fanout_loop dom base p todo i) = [] := by
  intro todo
  induction todo with
  | zero => intro i; rfl
  | succ n ih =>
      intro i
      rw [fanout_loop, reg_accesses_append, reg_accesses_fanout_body, ih]
      rfl

theorem mem_reg_accesses_of_write {o v : Nat} {l : List Event}
    (h : Event.glue_write32 o v ∈ l) : Event.glue_write32 o v ∈ reg_accesses l := by
  induction l with
  | nil => cases h
  | cons e rest ih =>
      rcases List.mem_cons.mp h with h1 | h1
      · subst h1; simp [reg_accesses]
      · cases e <;> simp [reg_accesses, ih h1]

theorem mem_reg_accesses_of_read {o : Nat} {l : List Event}
    (h : Event.glue_read32 o ∈ l) : Event.glue_read32 o ∈ reg_accesses l := by
  induction l with
  | nil => cases h
  | cons e rest ih =>
      rcases List.mem_cons.mp h with h1 | h1
      · subst h1; simp [reg_accesses]
      · cases e <;> simp [reg_accesses, ih h1]

theorem fanout_cfg_isSome_iff (f : Nat) :
    (fanout_cfg f).isSome = true ↔ (f = 4 ∨ f = 5 ∨ f = 7) := by
  unfold fanout_cfg
  by_cases h4 : f = 4
  · simp [h4]
  · by_cases h7 : f = 7
    · simp [h7]
    · by_cases h5 : f = 5
      · simp [h5]
      · simp [h4, h5, h7]

theorem handler_trace_of_none (dom : IrqDomain) (desc : IrqDesc) (r : Nat)
    (hc : fanout_cfg (hwirq_func desc.hwirq) = none) :
    bpcie_handle_edge_irq dom desc r
      = { pending := none, trace := [Event.handle_edge_irq desc] } := by
  unfold bpcie_handle_edge_irq
  simp only [hc]

/-- C18: `bpcie_handle_edge_irq` makes the acknowledge write and the status read exactly
when the function number `(hwirq >> 5) & 7` is 4, 5 or 7; for every other function the
run is one call of `handle_edge_irq` on the descriptor of the interrupt and nothing
else. -/
theorem fanout_only_for_functions_4_5_7 (dom : IrqDomain) (desc : IrqDesc) (r : Nat) :
    ((∃ v, Event.glue_write32 BPCIE_ACK_WRITE v ∈ (bpcie_handle_edge_irq dom desc r).trace) ↔
      (hwirq_func desc.hwirq = 4 ∨ hwirq_func desc.hwirq = 5 ∨ hwirq_func desc.hwirq = 7)) ∧
    (Event.glue_read32 BPCIE_ACK_READ ∈ (bpcie_handle_edge_irq dom desc r).trace ↔
      (hwirq_func desc.hwirq = 4 ∨ hwirq_func desc.hwirq = 5 ∨ hwirq_func desc.hwirq = 7)) ∧
    (¬ (hwirq_func desc.hwirq = 4 ∨ hwirq_func desc.hwirq = 5 ∨ hwirq_func desc.hwirq = 7) →
      (bpcie_handle_edge_irq dom desc r).trace = [Event.handle_edge_irq desc] ∧
      (bpcie_handle_edge_irq dom desc r).pending = none) := by
  have hiff := fanout_cfg_isSome_iff (hwirq_func desc.hwirq)
  cases hc : fanout_cfg (hwirq_func desc.hwirq) with
  | none =>
      rw [hc] at hiff
      have hno : ¬ (hwirq_func desc.hwirq = 4 ∨ hwirq_func desc.hwirq = 5 ∨
          hwirq_func desc.hwirq = 7) := fun h => by simpa using hiff.mpr h
      rw [handler_trace_of_none dom desc r hc]
      refine ⟨?_, ?_, ?_⟩
      · constructor
        · rintro ⟨v, hv⟩; simp at hv
        · intro h; exact absurd h hno
      · constructor
        · intro hv; simp at hv
        · intro h; exact absurd h hno
      · intro _; exact ⟨rfl, rfl⟩
  | some cfg =>
      rw [hc] at hiff
      have hyes := hiff.mp rfl
      rw [handler_trace_of_cfg dom desc r cfg hc]
      refine ⟨?_, ?_, ?_⟩
      · constructor
        · intro _; exact hyes
        · intro _; exact ⟨cfg.vector_to_write, by simp⟩
      · constructor
        · intro _; exact hyes
        · intro _; simp
      · intro h; exact absurd hyes h

/-- Witness of C18: for function 2 (AHCI) of slot 20 the run is the one call of the
ordinary edge handler. -/
theorem fanout_only_for_functions_4_5_7_witness :
    ¬ (hwirq_func 0x1440 = 4 ∨ hwirq_func 0x1440 = 5 ∨ hwirq_func 0x1440 = 7) ∧
    (bpcie_handle_edge_irq sample_domain ⟨0x1480, 0x1440⟩ 0).trace
      = [Event.handle_edge_irq ⟨0x1480, 0x1440⟩] :=
  ⟨by decide,
   ((fanout_only_for_functions_4_5_7 sample_domain ⟨0x1480, 0x1440⟩ 0).2.2 (by decide)).1⟩

/-- C19: in a fan-out run the handler writes the acknowledge token of the function (2
for function 4, 3 for the functions 5 and 7) to `BPCIE_ACK_WRITE` once, the next call is
the one read of `BPCIE_ACK_READ`, these two are the only register accesses of the run,
and every lookup and every handler call comes after the read. -/
theorem ack_write_then_read (dom : IrqDomain) (desc : IrqDesc) (r : Nat)
    (hf : hwirq_func desc.hwirq = 4 ∨ hwirq_func desc.hwirq = 5 ∨ hwirq_func desc.hwirq = 7) :
    ∃ rest,
      (bpcie_handle_edge_irq dom desc r).trace
        = [Event.raw_spin_lock,
           Event.glue_write32 BPCIE_ACK_WRITE (if hwirq_func desc.hwirq = 4 then 2 else 3),
           Event.glue_read32 BPCIE_ACK_READ,
           Event.raw_spin_unlock] ++ rest ∧
      reg_accesses rest = [] ∧
      reg_accesses (bpcie_handle_edge_irq dom desc r).trace
        = [Event.glue_write32 BPCIE_ACK_WRITE (if hwirq_func desc.hwirq = 4 then 2 else 3),
           Event.glue_read32 BPCIE_ACK_READ] ∧
      dispatched (bpcie_handle_edge_irq dom desc r).trace = dispatched rest := by
  have hcfg : ∃ cfg, fanout_cfg (hwirq_func desc.hwirq) = some cfg ∧
      cfg.vector_to_write = (if hwirq_func desc.hwirq = 4 then 2 else 3) := by
    rcases hf with h | h | h <;> rw [h] <;> exact ⟨_, rfl, rfl⟩
  obtain ⟨cfg, hc, htok⟩ := hcfg
  refine ⟨fanout_loop dom (hwirq_initial desc.hwirq)
    (subfunc_mask cfg.mask cfg.shift (u32 r)) 32 0, ?_, ?_, ?_, ?_⟩
  · rw [handler_trace_of_cfg dom desc r cfg hc, htok]
  · exact reg_accesses_fanout_loop dom _ _ 32 0
  · rw [handler_trace_of_cfg dom desc r cfg hc, htok]
    simp only [reg_accesses_append, reg_accesses_fanout_loop]
    rfl
  · rw [handler_trace_of_cfg dom desc r cfg hc]
    simp only [dispatched_append]
    rfl

/-- Witness of C19: for function 7 (xHCI) of slot 20 the register accesses of a run are
the write of the token 3 and the read that follows. -/
theorem ack_write_then_read_witness :
    (hwirq_func 0x14E0 = 4 ∨ hwirq_func 0x14E0 = 5 ∨ hwirq_func 0x14E0 = 7) ∧
    reg_accesses (bpcie_handle_edge_irq sample_domain ⟨0x1520, 0x14E0⟩ 0xFFFEFFFF).trace
      = [Event.glue_write32 0x110084 3, Event.glue_read32 0x110088] :=
  ⟨by decide,
   by
    obtain ⟨_, _, _, h, _⟩ :=
      ack_write_then_read sample_domain ⟨0x1520, 0x14E0⟩ 0xFFFEFFFF (by decide)
    exact h⟩

/-- C15, as stated, fails: `ICC_MAX_PAYLOAD` is not `0x7D0 - 8`. -/
theorem icc_max_payload_counterexample : ICC_MAX_PAYLOAD ≠ 0x7D0 - 8 := by
  decide

/-- C15, amended: `ICC_MAX_PAYLOAD = ICC_MAX_SIZE - ICC_HDR_SIZE` equals `0x7F0 - 12`,
that is `0x7E4 = 2020`. -/
theorem icc_max_payload_value :
    ICC_MAX_PAYLOAD = ICC_MAX_SIZE - ICC_HDR_SIZE ∧ ICC_MAX_SIZE = 0x7F0 ∧
    ICC_HDR_SIZE = 12 ∧ ICC_MAX_PAYLOAD = 0x7F0 - 12 ∧ ICC_MAX_PAYLOAD = 2020 := by
  decide

/-- C16, as stated, fails: the size of the packed `struct icc_message_hdr` is not 8. -/
theorem icc_hdr_size_counterexample : ICC_HDR_SIZE ≠ 8 := by
  decide

/-- C16, amended: the packed `struct icc_message_hdr` has the members `magic` (offset
0), `major` (1), `minor` (2), `unknown` (4), `cookie` (6), `length` (8) and `checksum`
(10) and the total size 12; for a framed message of total length `len` between
`ICC_MIN_SIZE` and `ICC_MAX_SIZE` the payload length `len - 12` lies between
`ICC_MIN_PAYLOAD` and `ICC_MAX_PAYLOAD`. -/
theorem icc_hdr_size_value (len : Nat) (hmin : ICC_MIN_SIZE ≤ len) (hmax : len ≤ ICC_MAX_SIZE) :
    ICC_HDR_SIZE = 12 ∧
    icc_message_hdr.map HDR = [0, 1, 2, 4, 6, 8, 10] ∧
    len - ICC_HDR_SIZE = len - 12 ∧
    (len - ICC_HDR_SIZE) + ICC_HDR_SIZE = len ∧
    ICC_MIN_PAYLOAD ≤ len - ICC_HDR_SIZE ∧ len - ICC_HDR_SIZE ≤ ICC_MAX_PAYLOAD := by
  have h12 : ICC_HDR_SIZE = 12 := by decide
  have hlo : ICC_MIN_SIZE = 32 := rfl
  have hhi : ICC_MAX_SIZE = 2032 := rfl
  have hpl : ICC_MIN_PAYLOAD = 20 := by decide
  have hph : ICC_MAX_PAYLOAD = 2020 := by decide
  rw [hlo] at hmin
  rw [hhi] at hmax
  refine ⟨h12, by decide, ?_, ?_, ?_, ?_⟩
  · rw [h12]
  · rw [h12]; omega
  · rw [h12, hpl]; omega
  · rw [h12, hph]; omega

/-- Witness of C16 (amended): a frame of the minimum total length `0x20` has the
payload length 20. -/
theorem icc_hdr_size_value_witness :
    (ICC_MIN_SIZE ≤ 0x20 ∧ 0x20 ≤ ICC_MAX_SIZE) ∧ ICC_HDR_SIZE = 12 ∧
    0x20 - ICC_HDR_SIZE = 0x20 - 12 :=
  ⟨by decide,
   (icc_hdr_size_value 0x20 (by decide) (by decide)).1,
   (icc_hdr_size_value 0x20 (by decide) (by decide)).2.2.1⟩

/-! ## Claims on `xhci_aeolia_probe` -/

/-- C12, as stated, fails: with the glue device ready (`apcie_status() = 1`) and the
IRQ assignment returning `-19`, `xhci_aeolia_probe` returns `-19`, which is not
`-EPROBE_DEFER = -517`. -/
theorem xhci_probe_defer_counterexample :
    sample_xhci_env.apcie_assign_irqs NR_DEVICES < 0 ∧
    (xhci_aeolia_probe sample_probe_defs sample_xhci_env).1 = -19 ∧
    (xhci_aeolia_probe sample_probe_defs sample_xhci_env).1
      ≠ -(sample_probe_defs.EPROBE_DEFER : Int) := by
  decide

/-- C12, amended: when the IRQ assignment in `xhci_aeolia_probe` returns a negative
value, the probe frees its state, clears the driver data, disables the device and
returns that value; the probe returns `-EPROBE_DEFER` when `apcie_status()` is 0 at
entry, before any other call. -/
theorem xhci_probe_returns_assign_error (K : ProbeDefs) (env : XhciEnv) :
    (env.apcie_status ≠ 0 → 0 ≤ env.pci_enable_device → env.devm_kzalloc = true →
      env.apcie_assign_irqs NR_DEVICES < 0 →
      xhci_aeolia_probe K env
        = (env.apcie_assign_irqs NR_DEVICES,
           [XhciCall.apcie_status, XhciCall.pci_enable_device, XhciCall.devm_kzalloc,
            XhciCall.pci_set_drvdata false, XhciCall.apcie_assign_irqs NR_DEVICES,
            XhciCall.devm_kfree, XhciCall.pci_set_drvdata true,
            XhciCall.pci_disable_device])) ∧
    (env.apcie_status = 0 →
      xhci_aeolia_probe K env = (-(K.EPROBE_DEFER : Int), [XhciCall.apcie_status])) := by
  constructor
  · intro hs he hk ha
    unfold xhci_aeolia_probe
    rw [if_neg hs, if_neg (not_lt.mpr he), if_neg (by simp [hk])]
    simp only [if_pos ha]
    rfl
  · intro hs
    unfold xhci_aeolia_probe
    rw [if_pos hs]

/-- Witness of C12 (amended): in the environment of the closed examples the probe
returns the `-19` of the IRQ assignment. -/
theorem xhci_probe_returns_assign_error_witness :
    (sample_xhci_env.apcie_status ≠ 0 ∧ 0 ≤ sample_xhci_env.pci_enable_device ∧
      sample_xhci_env.devm_kzalloc = true ∧
      sample_xhci_env.apcie_assign_irqs NR_DEVICES < 0) ∧
    (xhci_aeolia_probe sample_probe_defs sample_xhci_env).1 = -19 :=
  ⟨by decide,
   congrArg Prod.fst
     ((xhci_probe_returns_assign_error sample_probe_defs sample_xhci_env).1
       (by decide) (by decide) (by decide) (by decide))⟩

/-! ## Claims on `bpcie_probe` -/

theorem create_irq_domain_domain (K : ProbeDefs) (env : BpcieEnv) (func flags : Nat) :
    (bpcie_create_irq_domain K env func flags).domain
      = (env.x86_vector_domain && env.pci_msi_create_irq_domain func) := by
  unfold bpcie_create_irq_domain
  cases env.x86_vector_domain <;> simp

theorem create_irq_domains_domain (K : ProbeDefs) (env : BpcieEnv) :
    ∀ (todo func : Nat) (domain : Bool) (flags : Nat),
      (bpcie_create_irq_domains K env todo func domain flags).domain
        = if func ≤ 4 ∧ 4 < func + todo then
            (if env.get_bpcie_device 4 then
              (env.x86_vector_domain && env.pci_msi_create_irq_domain 4)
             else domain)
          else domain := by
  intro todo
  induction todo with
  | zero =>
      intro func domain flags
      have : ¬ (func ≤ 4 ∧ 4 < func + 0) := by omega
      rw [if_neg this]
      rfl
  | succ n ih =>
      intro func domain flags
      unfold bpcie_create_irq_domains
      by_cases hp : env.get_bpcie_device func = true
      · rw [if_pos hp]
        simp only [ih]
        by_cases h4 : func = 4
        · subst h4
          have h1 : ¬ (4 + 1 ≤ 4 ∧ 4 < 4 + 1 + n) := by omega
          have h2 : (4 ≤ 4 ∧ 4 < 4 + (n + 1)) := by omega
          rw [if_neg h1, if_pos h2, hp]
          simp [BAIKAL_FUNC_ID_PCIE, create_irq_domain_domain]
        · have hne : ¬ func = BAIKAL_FUNC_ID_PCIE := h4
          rw [if_neg hne]
          have hiff : (func + 1 ≤ 4 ∧ 4 < func + 1 + n) ↔ (func ≤ 4 ∧ 4 < func + (n + 1)) := by
            omega
          simp only [hiff]
      · rw [if_neg hp]
        simp only [ih]
        by_cases h4 : func = 4
        · subst h4
          have h1 : ¬ (4 + 1 ≤ 4 ∧ 4 < 4 + 1 + n) := by omega
          have h2 : (4 ≤ 4 ∧ 4 < 4 + (n + 1)) := by omega
          rw [if_neg h1, if_pos h2, if_neg hp]
        · have hiff : (func + 1 ≤ 4 ∧ 4 < func + 1 + n) ↔ (func ≤ 4 ∧ 4 < func + (n + 1)) := by
            omega
          simp only [hiff]

theorem glue_init_ret (K : ProbeDefs) (env : BpcieEnv) (sc : BpcieDev) (flags : Nat)
    (hsc : sc.irqdomain = false) :
    (bpcie_glue_init K env sc flags).ret
      = if ¬ env.request_mem_region 2 then -(K.EBUSY : Int)
        else if ¬ env.request_mem_region 4 then -(K.EBUSY : Int)
        else if ¬ (env.get_bpcie_device 4 && (env.x86_vector_domain
            && env.pci_msi_create_irq_domain 4)) then -(K.EIO : Int)
        else if env.pci_alloc_irq_vectors (BPCIE_SUBFUNC_ICC + 1) BPCIE_NUM_SUBFUNCS ≤ 0 then
          -(K.EIO : Int)
        else 0 := by
  have hd : (bpcie_create_irq_domains K env BAIKAL_NUM_FUNCS 0 sc.irqdomain flags).domain
      = (env.get_bpcie_device 4 && (env.x86_vector_domain
          && env.pci_msi_create_irq_domain 4)) := by
    rw [create_irq_domains_domain, hsc]
    have : (0 ≤ 4 ∧ 4 < 0 + BAIKAL_NUM_FUNCS) := by decide
    rw [if_pos this]
    cases env.get_bpcie_device 4 <;> simp
  unfold bpcie_glue_init
  by_cases h2 : env.request_mem_region 2 = true
  · by_cases h4 : env.request_mem_region 4 = true
    · simp only [h2, h4, not_true_eq_false, if_false, hd]
      by_cases hdom : (env.get_bpcie_device 4 && (env.x86_vector_domain
          && env.pci_msi_create_irq_domain 4)) = true
      · simp only [hdom, not_true_eq_false, if_false]
        by_cases ha : env.pci_alloc_irq_vectors (BPCIE_SUBFUNC_ICC + 1) BPCIE_NUM_SUBFUNCS ≤ 0
        · simp only [if_pos ha]
        · simp only [if_neg ha]
      · have hfalse : (env.get_bpcie_device 4 && (env.x86_vector_domain
            && env.pci_msi_create_irq_domain 4)) = false := by simpa using hdom
        simp only [hfalse, Bool.false_eq_true, not_false_eq_true, if_true]
    · simp [h2, h4]
  · simp [h2]

theorem uart_init_ret_zero (K : ProbeDefs) (env : BpcieEnv) (sc : BpcieDev) (flags : Nat)
    (h0 : 0 ≤ env.serial8250_register_8250_port 0)
    (h1 : 0 ≤ env.serial8250_register_8250_port 1) :
    (bpcie_uart_init K env sc flags).ret = 0 := by
  unfold bpcie_uart_init
  simp only [BPCIE_NR_UARTS, uart_init_loop, not_lt.mpr h0, not_lt.mpr h1, if_false]

/-- C13: once the device is enabled and the state allocated, `bpcie_probe` returns the
negative `-EIO` and leaves `bpcie_initialized` as it was when one of BAR0, BAR2, BAR4
fails to map, and when the IRQ domain of function 4 is not created; when every step of
the glue function itself succeeds, the probe returns 0 and sets `bpcie_initialized`,
whatever happens to the IRQ domains of the other functions. -/
theorem probe_fails_on_bar_or_domain (K : ProbeDefs) (env : BpcieEnv) (flags : Nat)
    (initialized : Bool) (hpos : 0 < K.EIO) (henable : env.pci_enable_device = 0)
    (hk : env.kzalloc = true) :
    ((env.pci_ioremap_bar 0 = false ∨ env.pci_ioremap_bar 2 = false ∨
        env.pci_ioremap_bar 4 = false) →
      (bpcie_probe K env flags initialized).ret = -(K.EIO : Int) ∧
      (bpcie_probe K env flags initialized).ret < 0 ∧
      (bpcie_probe K env flags initialized).bpcie_initialized = initialized) ∧
    (env.pci_ioremap_bar 0 = true → env.pci_ioremap_bar 2 = true →
      env.pci_ioremap_bar 4 = true →
      env.request_mem_region 2 = true → env.request_mem_region 4 = true →
      (env.get_bpcie_device 4 && (env.x86_vector_domain
        && env.pci_msi_create_irq_domain 4)) = false →
      (bpcie_probe K env flags initialized).ret = -(K.EIO : Int) ∧
      (bpcie_probe K env flags initialized).ret < 0 ∧
      (bpcie_probe K env flags initialized).bpcie_initialized = initialized) ∧
    (env.pci_ioremap_bar 0 = true → env.pci_ioremap_bar 2 = true →
      env.pci_ioremap_bar 4 = true →
      env.request_mem_region 2 = true → env.request_mem_region 4 = true →
      env.get_bpcie_device 4 = true → env.x86_vector_domain = true →
      env.pci_msi_create_irq_domain 4 = true →
      0 < env.pci_alloc_irq_vectors (BPCIE_SUBFUNC_ICC + 1) BPCIE_NUM_SUBFUNCS →
      0 ≤ env.serial8250_register_8250_port 0 → 0 ≤ env.serial8250_register_8250_port 1 →
      0 ≤ env.bpcie_icc_init →
      (bpcie_probe K env flags initialized).ret = 0 ∧
      (bpcie_probe K env flags initialized).bpcie_initialized = true) := by
  have hneg : -(K.EIO : Int) < 0 := by omega
  refine ⟨?_, ?_, ?_⟩
  · intro hbar
    have hcond : ¬ env.pci_ioremap_bar 0 = true ∨ ¬ env.pci_ioremap_bar 2 = true ∨
        ¬ env.pci_ioremap_bar 4 = true := by
      rcases hbar with h | h | h
      · exact Or.inl (by simp [h])
      · exact Or.inr (Or.inl (by simp [h]))
      · exact Or.inr (Or.inr (by simp [h]))
    unfold bpcie_probe
    simp only [henable, ne_eq, not_true_eq_false, if_false, hk, if_pos hcond]
    refine ⟨?_, ?_, ?_⟩ <;> trivial
  · intro b0 b2 b4 r2 r4 hdom
    have hg := glue_init_ret K env
      { bar0 := env.pci_ioremap_bar 0, bar2 := env.pci_ioremap_bar 2,
        bar4 := env.pci_ioremap_bar 4, irqdomain := false, nvec := 0, serial_line := [0, 0] }
      flags rfl
    simp only [r2, r4, not_true_eq_false, if_false, hdom, Bool.false_eq_true,
      not_false_eq_true, if_true] at hg
    have hcond : ¬ (¬ env.pci_ioremap_bar 0 = true ∨ ¬ env.pci_ioremap_bar 2 = true ∨
        ¬ env.pci_ioremap_bar 4 = true) := by simp [b0, b2, b4]
    unfold bpcie_probe
    simp only [henable, ne_eq, not_true_eq_false, if_false, hk, if_neg hcond, hg,
      if_pos hneg]
    refine ⟨?_, ?_, ?_⟩ <;> trivial
  · intro b0 b2 b4 r2 r4 hp hv hc ha hu0 hu1 hicc
    have hg := glue_init_ret K env
      { bar0 := env.pci_ioremap_bar 0, bar2 := env.pci_ioremap_bar 2,
        bar4 := env.pci_ioremap_bar 4, irqdomain := false, nvec := 0, serial_line := [0, 0] }
      flags rfl
    simp only [r2, r4, hp, hv, hc, not_true_eq_false, if_false, Bool.and_self,
      if_neg (not_le.mpr ha)] at hg
    have hcond : ¬ (¬ env.pci_ioremap_bar 0 = true ∨ ¬ env.pci_ioremap_bar 2 = true ∨
        ¬ env.pci_ioremap_bar 4 = true) := by simp [b0, b2, b4]
    unfold bpcie_probe
    simp only [henable, ne_eq, not_true_eq_false, if_false, hk, if_neg hcond, hg,
      lt_self_iff_false, uart_init_ret_zero K env _ _ hu0 hu1, if_neg (not_lt.mpr hicc)]
    refine ⟨?_, ?_⟩ <;> trivial

/-- Witness of C13: in the environment of the closed examples with BAR2 failing to
map, the probe returns `-5`. -/
theorem probe_fails_on_bar_or_domain_witness :
    (0 < sample_probe_defs.EIO ∧ sample_env_no_bar2.pci_enable_device = 0 ∧
      sample_env_no_bar2.kzalloc = true ∧ sample_env_no_bar2.pci_ioremap_bar 2 = false) ∧
    (bpcie_probe sample_probe_defs sample_env_no_bar2 3 false).ret = -5 :=
  ⟨by decide,
   ((probe_fails_on_bar_or_domain sample_probe_defs sample_env_no_bar2 3 false
      (by decide) (by decide) (by decide)).1 (Or.inr (Or.inl (by decide)))).1⟩

/-- C14, at the failing input: all eight functions are present and each gets an IRQ
domain, then `pci_alloc_irq_vectors` fails with `-28`. The probe returns `-5`; the
IRQ domain of function 7 (and of every function other than 4) was acquired and is
not released; what is released is the domain of function 4, the regions 4 and 2, the
BARs 0, 2, 4, the state and the device. -/
theorem probe_leaves_sibling_domains :
    (bpcie_probe sample_probe_defs sample_env_no_vectors 3 false).ret = -5 ∧
    Resource.irq_domain 7 ∈
      acquired (bpcie_probe sample_probe_defs sample_env_no_vectors 3 false).trace ∧
    Resource.irq_domain 7 ∉
      released (bpcie_probe sample_probe_defs sample_env_no_vectors 3 false).trace ∧
    released (bpcie_probe sample_probe_defs sample_env_no_vectors 3 false).trace
      = [Resource.irq_domain 4, Resource.region 4, Resource.region 2, Resource.bar 0,
         Resource.bar 2, Resource.bar 4, Resource.state, Resource.device_enable] := by
  decide

/-! ## The mask callbacks stop at the early return -/

/-- Without the `return;` the remaining statements of the mask callback would compute
the mask word with the loop, write it to configuration space at `desc->mask_pos` and
store it in `desc->masked`. -/
theorem mask_tail_runs_without_return (steps : Nat) (generic : MsiDesc → MsiDesc)
    (data : IrqData) (desc : MsiDesc) (m : Nat)
    (h : bpcie_msi_mask_word steps (get_subfunc data.hwirq) desc.masked desc.nvec_used
      = some m) :
    run_mask_body (MaskCall.pci_msi_mask_irq data) generic
      (fun d => bpcie_msi_mask_word steps (get_subfunc data.hwirq) d.masked d.nvec_used)
      [MaskStmt.bit_loop, MaskStmt.write_config, MaskStmt.store_masked] 0
      ⟨desc, [], [], []⟩ =
    some ⟨{ desc with masked := m }, [], [⟨desc.mask_pos, m⟩],
      [MaskStmt.bit_loop, MaskStmt.write_config, MaskStmt.store_masked]⟩ := by
  simp [run_mask_body, h]

/-- C24: for every interrupt, every effect `generic` of the generic function on the
descriptor and every loop bound, a run of `bpcie_msi_mask` (of `bpcie_msi_unmask`)
executes the generic call and nothing else: the descriptor afterwards is the one the
generic call leaves, the driver writes nothing to configuration space, the only
statement executed is the generic call, so the loop, the write of the mask word and
the store to `desc->masked` are not executed. -/
theorem mask_callbacks_are_generic (steps : Nat) (generic : MsiDesc → MsiDesc)
    (data : IrqData) (desc : MsiDesc) :
    bpcie_msi_mask_run steps generic data desc =
      some ⟨generic desc, [MaskCall.pci_msi_mask_irq data], [],
        [MaskStmt.generic_call]⟩ ∧
    bpcie_msi_unmask_run steps generic data desc =
      some ⟨generic desc, [MaskCall.pci_msi_unmask_irq data], [],
        [MaskStmt.generic_call]⟩ ∧
    bpcie_msi_mask data = [MaskCall.pci_msi_mask_irq data] ∧
    bpcie_msi_unmask data = [MaskCall.pci_msi_unmask_irq data] :=
  ⟨rfl, rfl, rfl, rfl⟩

/-! ## Layout of the ICC mailbox -/

/-- C30: a message of `ICC_MAX_SIZE` bytes in the request area ends before the flag
words of that area and before the reply area; the same message in the reply area
starts after the request area with its flag words and ends before the flag words of
the reply area; both areas with their flag words lie inside `BPCIE_SPM_ICC_SIZE`; the
doorbell, status and IRQ-mask registers are pairwise distinct and each lies inside
`[BPCIE_RGN_ICC_BASE, BPCIE_RGN_ICC_BASE + BPCIE_RGN_ICC_SIZE)`. -/
theorem icc_mailbox_layout :
    ranges_disjoint BPCIE_SPM_ICC_REQUEST ICC_MAX_SIZE
      BPCIE_SPM_ICC_REPLY (BPCIE_SPM_ICC_SIZE - BPCIE_SPM_ICC_REPLY) ∧
    ranges_disjoint BPCIE_SPM_ICC_REQUEST ICC_MAX_SIZE
      (BPCIE_SPM_ICC_REQUEST + BUF_FULL) WORD_SIZE ∧
    ranges_disjoint BPCIE_SPM_ICC_REQUEST ICC_MAX_SIZE
      (BPCIE_SPM_ICC_REQUEST + BUF_EMPTY) WORD_SIZE ∧
    ranges_disjoint BPCIE_SPM_ICC_REPLY ICC_MAX_SIZE
      BPCIE_SPM_ICC_REQUEST (BPCIE_SPM_ICC_REPLY - BPCIE_SPM_ICC_REQUEST) ∧
    ranges_disjoint BPCIE_SPM_ICC_REPLY ICC_MAX_SIZE
      (BPCIE_SPM_ICC_REPLY + BUF_FULL) WORD_SIZE ∧
    ranges_disjoint BPCIE_SPM_ICC_REPLY ICC_MAX_SIZE
      (BPCIE_SPM_ICC_REPLY + BUF_EMPTY) WORD_SIZE ∧
    ranges_disjoint (BPCIE_SPM_ICC_REQUEST + BUF_FULL) WORD_SIZE
      (BPCIE_SPM_ICC_REQUEST + BUF_EMPTY) WORD_SIZE ∧
    ranges_disjoint (BPCIE_SPM_ICC_REPLY + BUF_FULL) WORD_SIZE
      (BPCIE_SPM_ICC_REPLY + BUF_EMPTY) WORD_SIZE ∧
    range_inside (BPCIE_SPM_ICC_REQUEST + BUF_FULL) WORD_SIZE
      BPCIE_SPM_ICC_REQUEST (BPCIE_SPM_ICC_REPLY - BPCIE_SPM_ICC_REQUEST) ∧
    range_inside (BPCIE_SPM_ICC_REQUEST + BUF_EMPTY) WORD_SIZE
      BPCIE_SPM_ICC_REQUEST (BPCIE_SPM_ICC_REPLY - BPCIE_SPM_ICC_REQUEST) ∧
    range_inside BPCIE_SPM_ICC_REQUEST (BUF_EMPTY + WORD_SIZE) 0 BPCIE_SPM_ICC_SIZE ∧
    range_inside BPCIE_SPM_ICC_REPLY (BUF_EMPTY + WORD_SIZE) 0 BPCIE_SPM_ICC_SIZE ∧
    BPCIE_REG_ICC_DOORBELL = BPCIE_RGN_ICC_BASE + 0x804 ∧
    BPCIE_REG_ICC_STATUS = BPCIE_RGN_ICC_BASE + 0x814 ∧
    BPCIE_REG_ICC_IRQ_MASK = BPCIE_RGN_ICC_BASE + 0x824 ∧
    ranges_disjoint BPCIE_REG_ICC_DOORBELL WORD_SIZE BPCIE_REG_ICC_STATUS WORD_SIZE ∧
    ranges_disjoint BPCIE_REG_ICC_DOORBELL WORD_SIZE BPCIE_REG_ICC_IRQ_MASK WORD_SIZE ∧
    ranges_disjoint BPCIE_REG_ICC_STATUS WORD_SIZE BPCIE_REG_ICC_IRQ_MASK WORD_SIZE ∧
    range_inside BPCIE_REG_ICC_DOORBELL WORD_SIZE BPCIE_RGN_ICC_BASE BPCIE_RGN_ICC_SIZE ∧
    range_inside BPCIE_REG_ICC_STATUS WORD_SIZE BPCIE_RGN_ICC_BASE BPCIE_RGN_ICC_SIZE ∧
    range_inside BPCIE_REG_ICC_IRQ_MASK WORD_SIZE BPCIE_RGN_ICC_BASE
      BPCIE_RGN_ICC_SIZE := by
  decide

/-! ## The register BAR of the Baikal AHCI controller -/

/-- A device whose vendor is none of STMicro, `0x1c44` and Cavium keeps
`AHCI_PCI_BAR_STANDARD`: the chain has no branch for it. -/
theorem ahci_pci_bar_other_vendor (K : AhciDefs) (vendor device : Nat)
    (h1 : vendor ≠ K.PCI_VENDOR_ID_STMICRO) (h2 : vendor ≠ 0x1c44)
    (h3 : vendor ≠ K.PCI_VENDOR_ID_CAVIUM) :
    ahci_pci_bar K vendor device = AHCI_PCI_BAR_STANDARD := by
  unfold ahci_pci_bar
  simp [h1, h2, h3]

/-- C23: for the Sony vendor id and the Baikal AHCI device id the BAR choice of
`ahci_init_one` yields `AHCI_PCI_BAR_STANDARD` (5), not `AHCI_PCI_BAR0_BAIKAL` (0):
the Sony test is nested in the Cavium branch and is not reached. -/
theorem ahci_bar_baikal_stays_standard :
    ahci_pci_bar sample_ahci_defs sample_ahci_defs.PCI_VENDOR_ID_SONY
      sample_ahci_defs.PCI_DEVICE_ID_SONY_BAIKAL_AHCI = AHCI_PCI_BAR_STANDARD ∧
    AHCI_PCI_BAR_STANDARD = 5 ∧ AHCI_PCI_BAR0_BAIKAL = 0 ∧
    ahci_pci_bar sample_ahci_defs sample_ahci_defs.PCI_VENDOR_ID_SONY
      sample_ahci_defs.PCI_DEVICE_ID_SONY_BAIKAL_AHCI ≠ AHCI_PCI_BAR0_BAIKAL := by
  decide

/-! ## PHY register writes of `bpcie_sata_phy_init` -/

/-- The write to register `0x20A0` puts the 6-bit efuse value into bits 10..15. -/
theorem phy_write_20A0_field (usb : Bool) (e : Efuse) (v22 : Nat)
    (hx : (if usb then e.v423 else e.v422) < 64) :
    bit_field (phy_write_20A0 usb e v22) 10 6 = (if usb then e.v423 else e.v422) := by
  unfold bit_field phy_write_20A0
  generalize (if usb then e.v423 else e.v422) = x at hx ⊢
  apply Nat.eq_of_testBit_eq
  intro i
  have hlt : x < 2 ^ 6 := hx
  simp only [Nat.testBit_mod_two_pow, Nat.testBit_shiftRight, testBit_u32, Nat.testBit_or,
    Nat.testBit_and, Nat.testBit_shiftLeft]
  by_cases hi : i < 6
  · have h1 : (10 + i < 32) := by omega
    have h2 : (10 + i ≥ 10) := by omega
    have h3 : 10 + i - 10 = i := by omega
    have hA : Nat.testBit 0xFBFF03FF (10 + i) = false := by
      interval_cases i <;> decide
    have hB : Nat.testBit 0x4000000 (10 + i) = false := by
      interval_cases i <;> decide
    simp [hi, h1, h3, hA, hB]
  · have hx0 : x.testBit i = false :=
      Nat.testBit_lt_two_pow (lt_of_lt_of_le hlt (Nat.pow_le_pow_right (by decide) (by omega)))
    simp [hi, hx0]

/-- The write to register `0x2054` leaves in bits 7..11 the bitwise AND of the bits
read and the efuse value: it can clear bits of the field, not set them. -/
theorem phy_write_2054_field (usb : Bool) (e : Efuse) (v36 : Nat) :
    bit_field (phy_write_2054 usb e v36) 7 5
      = bit_field v36 7 5 &&& (if usb then e.v421 else e.v420) := by
  unfold bit_field phy_write_2054
  generalize (if usb then e.v421 else e.v420) = x
  apply Nat.eq_of_testBit_eq
  intro i
  simp only [Nat.testBit_mod_two_pow, Nat.testBit_shiftRight, testBit_u32, Nat.testBit_or,
    Nat.testBit_and, Nat.testBit_shiftLeft]
  by_cases hi : i < 5
  · have h1 : (7 + i < 32) := by omega
    have h3 : 7 + i - 7 = i := by omega
    have hA : Nat.testBit 0xFFFFF07F (7 + i) = false := by
      interval_cases i <;> decide
    simp [hi, h1, h3, hA]
  · simp [hi]

/-- C28: with the default efuse value `v420 = 16` and the value 0 read from register
`0x2054`, the value written back is 0, so bits 7..11 hold 0 and not 16: the efuse
value is combined with the mask inside the `&`. The write to `0x20A0` with its
default `v422 = 40` does leave 40 in bits 10..15. -/
theorem phy_2054_write_drops_efuse :
    (phy_efuse 0 0).v420 = 16 ∧
    phy_write_2054 false (phy_efuse 0 0) 0 = 0 ∧
    bit_field (phy_write_2054 false (phy_efuse 0 0) 0) 7 5 = 0 ∧
    bit_field (phy_write_2054 false (phy_efuse 0 0) 0) 7 5 ≠ (phy_efuse 0 0).v420 ∧
    (phy_efuse 0 0).v422 = 40 ∧
    bit_field (phy_write_20A0 false (phy_efuse 0 0) 0) 10 6 = (phy_efuse 0 0).v422 := by
  decide

/-! ## Trace length of `bpcie_sata_phy_init` -/

/-- For a 32-bit buffer value the pieces of the computation in arithmetic form. -/
theorem phy_trace_length_eq (b : Nat) (hb : b < 4294967296) :
    phy_trace_length b =
      if b ≠ 0 then
        (if max ((b % 256) / 32) 2 - 2 + b % 32 ≤ 0x12 then
          max ((b % 256) / 32) 2 - 2 + b % 32 else 6)
      else 6 := by
  unfold phy_trace_length
  have h1 : u32 b = b := u32_of_lt hb
  have h2 : b &&& 0x1F = b % 32 := Nat.and_pow_two_sub_one_eq_mod b 5
  have h3 : (b % 256) >>> 5 = (b % 256) / 32 := Nat.shiftRight_eq_div_pow _ 5
  simp only [h1, h2, h3]
  have h4 : (b % 256) / 32 < 8 := by omega
  have h5 : (if (b % 256) / 32 ≤ 2 then 0 else (b % 256) / 32 - 2) =
      max ((b % 256) / 32) 2 - 2 := by
    split_ifs with h
    · rw [max_eq_right h]
    · rw [max_eq_left (by omega)]
  rw [h5]
  have h6 : u32 (max ((b % 256) / 32) 2 - 2 + b % 32) =
      max ((b % 256) / 32) 2 - 2 + b % 32 := by
    apply u32_of_lt
    have : max ((b % 256) / 32) 2 ≤ 8 := max_le (by omega) (by decide)
    omega
  rw [h6]

/-- C29: for every 32-bit value `b` of the buffer field, with
`t = max((b & 0xFF) >> 5, 2) - 2 + (b & 0x1F)`: the trace length is at most `0x12`;
it is `t` when `b` is non-zero and `t <= 0x12`; it is 6 when `b` is zero or
`t > 0x12`; and when the trace length is 6, 7 or 8, or the buffer is zero, the
sequence chosen is the one at `LABEL_45`. -/
theorem trace_length_bounded (b : Nat) (hb : b < 4294967296) :
    phy_trace_length b ≤ 0x12 ∧
    (b ≠ 0 → max ((b &&& 0xFF) >>> 5) 2 - 2 + (b &&& 0x1F) ≤ 0x12 →
      phy_trace_length b = max ((b &&& 0xFF) >>> 5) 2 - 2 + (b &&& 0x1F)) ∧
    (b = 0 ∨ 0x12 < max ((b &&& 0xFF) >>> 5) 2 - 2 + (b &&& 0x1F) →
      phy_trace_length b = 6) ∧
    (b = 0 ∨ phy_trace_length b = 6 ∨ phy_trace_length b = 7 ∨ phy_trace_length b = 8 →
      phy_sequence b = PhySequence.label_45) := by
  have h2 : b &&& 0x1F = b % 32 := Nat.and_pow_two_sub_one_eq_mod b 5
  have h2b : b &&& 0xFF = b % 256 := Nat.and_pow_two_sub_one_eq_mod b 8
  have h3 : (b % 256) >>> 5 = (b % 256) / 32 := Nat.shiftRight_eq_div_pow _ 5
  have heq := phy_trace_length_eq b hb
  rw [h2, h2b, h3]
  refine ⟨?_, ?_, ?_, ?_⟩
  · rw [heq]; split_ifs <;> omega
  · intro h0 ht
    rw [heq, if_pos h0, if_pos ht]
  · intro h
    rw [heq]
    rcases h with h | h
    · rw [if_neg (by simpa using h)]
    · split_ifs <;> omega
  · intro h
    simp only [phy_sequence, u32_of_lt hb]
    rcases h with h | h | h | h
    · rw [if_neg (by simpa using h)]
    · split_ifs <;> first | rfl | omega
    · split_ifs <;> first | rfl | omega
    · split_ifs <;> first | rfl | omega

/-- Witness for C29: the buffer value `0x65` has `v55 = 3`, so `t = 1 + 5 = 6`. -/
theorem trace_length_bounded_witness :
    (0x65 : Nat) < 4294967296 ∧ phy_trace_length 0x65 = 6 ∧
    phy_sequence 0x65 = PhySequence.label_45 :=
  ⟨by decide, by decide,
    (trace_length_bounded 0x65 (by decide)).2.2.2 (Or.inr (Or.inl (by decide)))⟩

/-! ## IRQ numbers of the glue subfunctions -/

/-- After a successful `bpcie_glue_init` the vector count is the value that
`pci_alloc_irq_vectors` returned for the minimum 4 and the maximum 32. -/
theorem glue_init_nvec (K : ProbeDefs) (env : BpcieEnv) (sc : BpcieDev) (flags : Nat)
    (hpos : 0 < K.EIO) (hbusy : 0 < K.EBUSY)
    (h : (bpcie_glue_init K env sc flags).ret = 0) :
    (bpcie_glue_init K env sc flags).sc.nvec
      = env.pci_alloc_irq_vectors (BPCIE_SUBFUNC_ICC + 1) BPCIE_NUM_SUBFUNCS ∧
    0 < env.pci_alloc_irq_vectors (BPCIE_SUBFUNC_ICC + 1) BPCIE_NUM_SUBFUNCS := by
  have hE : -(K.EIO : Int) ≠ 0 := by omega
  have hB : -(K.EBUSY : Int) ≠ 0 := by omega
  unfold bpcie_glue_init at h ⊢
  by_cases h2 : env.request_mem_region 2 = true
  · by_cases h4 : env.request_mem_region 4 = true
    · simp only [h2, h4, not_true_eq_false, if_false] at h ⊢
      split_ifs at h with hd hn
      · exact absurd h hE
      · rw [if_neg (not_not.mpr hd), if_neg hn]
        exact ⟨rfl, by omega⟩
      · exact absurd h hE
    · simp only [h2, h4, not_true_eq_false, if_false, if_true, not_false_eq_true] at h
      exact absurd h hB
  · simp only [h2, if_true, not_false_eq_true] at h
    exact absurd h hB

/-- The ICC index is inside the allocated range after every successful
`bpcie_glue_init`, when `pci_alloc_irq_vectors` keeps to the minimum asked for. -/
theorem icc_irq_in_range (K : ProbeDefs) (env : BpcieEnv) (sc : BpcieDev) (flags : Nat)
    (hpos : 0 < K.EIO) (hbusy : 0 < K.EBUSY)
    (hmin : ∀ lo hi, 0 < env.pci_alloc_irq_vectors lo hi →
      lo ≤ env.pci_alloc_irq_vectors lo hi)
    (h : (bpcie_glue_init K env sc flags).ret = 0) :
    (env.irq : Int) ≤ bpcie_irqnum (bpcie_glue_init K env sc flags).sc env.irq
      BPCIE_SUBFUNC_ICC ∧
    (bpcie_irqnum (bpcie_glue_init K env sc flags).sc env.irq BPCIE_SUBFUNC_ICC : Int)
      < env.irq + (bpcie_glue_init K env sc flags).sc.nvec := by
  obtain ⟨hn, hp⟩ := glue_init_nvec K env sc flags hpos hbusy h
  have hge := hmin _ _ hp
  rw [← hn] at hge hp
  unfold bpcie_irqnum
  have h1 : (bpcie_glue_init K env sc flags).sc.nvec > 1 := by
    have : ((BPCIE_SUBFUNC_ICC : Nat) : Int) + 1 = 4 := by decide
    omega
  rw [if_pos h1]
  have : ((BPCIE_SUBFUNC_ICC : Nat) : Int) = 3 := by decide
  have h4 : ((BPCIE_SUBFUNC_ICC : Nat) : Int) + 1 = 4 := by decide
  push_cast
  omega

/-- C22: when `pci_alloc_irq_vectors` grants 16 vectors from IRQ 40 on,
`bpcie_glue_init` succeeds with `sc->nvec = 16`; the IRQ number of the ICC is 43,
inside `[40, 56)`, and those of the two UARTs are `40 + 26 = 66` and `40 + 27 = 67`,
outside the allocated range. -/
theorem uart_irq_outside_allocated_range :
    (bpcie_glue_init sample_probe_defs sample_env_16_vectors sample_sc 0).ret = 0 ∧
    (bpcie_glue_init sample_probe_defs sample_env_16_vectors sample_sc 0).sc.nvec = 16 ∧
    sample_env_16_vectors.irq = 40 ∧
    bpcie_irqnum (bpcie_glue_init sample_probe_defs sample_env_16_vectors sample_sc 0).sc
      sample_env_16_vectors.irq BPCIE_SUBFUNC_ICC = 43 ∧
    bpcie_irqnum (bpcie_glue_init sample_probe_defs sample_env_16_vectors sample_sc 0).sc
      sample_env_16_vectors.irq BPCIE_SUBFUNC_UART0 = 66 ∧
    bpcie_irqnum (bpcie_glue_init sample_probe_defs sample_env_16_vectors sample_sc 0).sc
      sample_env_16_vectors.irq BPCIE_SUBFUNC_UART1 = 67 ∧
    ¬ ((66 : Int) < sample_env_16_vectors.irq
      + (bpcie_glue_init sample_probe_defs sample_env_16_vectors sample_sc 0).sc.nvec) := by
  decide

/-! ## `bpcie_uart_init` and `bpcie_uart_remove` -/

/-- An array of `BPCIE_NR_UARTS` lines has two entries. -/
theorem serial_line_pair (l : List Int) (h : l.length = BPCIE_NR_UARTS) :
    ∃ a b, l = [a, b] := by
  match l, h with
  | [a, b], _ => exact ⟨a, b, rfl⟩

/-- The loop of `bpcie_uart_remove` on the array `[a, b]`. -/
theorem uart_remove_loop_pair (a b : Int) :
    uart_remove_loop BPCIE_NR_UARTS 0 [a, b] =
      ([if 0 ≤ a then -1 else a, if 0 ≤ b then -1 else b],
       (if 0 ≤ a then [ProbeCall.serial8250_unregister_port 0 a] else [])
        ++ (if 0 ≤ b then [ProbeCall.serial8250_unregister_port 1 b] else [])) := by
  by_cases ha : 0 ≤ a <;> by_cases hb : 0 ≤ b <;>
    simp [BPCIE_NR_UARTS, uart_remove_loop, ha, hb]

/-- C27: on a device state whose `serial_line` array has `BPCIE_NR_UARTS` entries,
`bpcie_uart_init` either returns 0, every `serial_line[i]` being the non-negative line
that the registration of port `i` returned, both ports registered and none
unregistered; or it returns `-EIO`, every `serial_line[i]` being negative and the
ports unregistered being the ports registered during the call, each once. And
`bpcie_uart_remove` unregisters the entries that hold a non-negative line, each once,
sets them to -1 and leaves the other entries; a second call unregisters nothing and
changes nothing. -/
theorem uart_init_all_or_nothing (K : ProbeDefs) (env : BpcieEnv) (sc : BpcieDev)
    (flags : Nat) (hlen : sc.serial_line.length = BPCIE_NR_UARTS) :
    (((bpcie_uart_init K env sc flags).ret = 0 ∧
        (∀ i, i < BPCIE_NR_UARTS →
          (bpcie_uart_init K env sc flags).sc.serial_line.getD i (-1)
            = env.serial8250_register_8250_port i ∧
          0 ≤ (bpcie_uart_init K env sc flags).sc.serial_line.getD i (-1)) ∧
        acquired (bpcie_uart_init K env sc flags).trace
          = [Resource.uart_port 0, Resource.uart_port 1] ∧
        released (bpcie_uart_init K env sc flags).trace = []) ∨
      ((bpcie_uart_init K env sc flags).ret = -(K.EIO : Int) ∧
        (∀ i, i < BPCIE_NR_UARTS →
          (bpcie_uart_init K env sc flags).sc.serial_line.getD i 0 < 0) ∧
        released (bpcie_uart_init K env sc flags).trace
          = acquired (bpcie_uart_init K env sc flags).trace ∧
        (released (bpcie_uart_init K env sc flags).trace).Nodup)) ∧
    released (bpcie_uart_remove sc flags).trace
      = ((List.range BPCIE_NR_UARTS).filter
          (fun i => decide (0 ≤ sc.serial_line.getD i (-1)))).map Resource.uart_port ∧
    (∀ i, i < BPCIE_NR_UARTS →
      (bpcie_uart_remove sc flags).sc.serial_line.getD i 0
        = if 0 ≤ sc.serial_line.getD i (-1) then -1 else sc.serial_line.getD i (-1)) ∧
    (bpcie_uart_remove (bpcie_uart_remove sc flags).sc flags).trace = [] ∧
    (bpcie_uart_remove (bpcie_uart_remove sc flags).sc flags).sc
      = (bpcie_uart_remove sc flags).sc := by
  obtain ⟨a, b, hab⟩ := serial_line_pair sc.serial_line hlen
  have hall : ∀ P : Nat → Prop, P 0 → P 1 → ∀ i, i < BPCIE_NR_UARTS → P i := by
    intro P h0 h1 i hi
    have : i = 0 ∨ i = 1 := by
      have : BPCIE_NR_UARTS = 2 := rfl
      omega
    rcases this with rfl | rfl <;> assumption
  refine ⟨?_, ?_, ?_, ?_, ?_⟩
  · have hclear : uart_clear_loop BPCIE_NR_UARTS 0 sc.serial_line = [-1, -1] := by
      rw [hab]; rfl
    unfold bpcie_uart_init
    rw [hclear]
    by_cases h0 : env.serial8250_register_8250_port 0 < 0
    · right
      have hn0 : ¬ 0 ≤ env.serial8250_register_8250_port 0 := not_le.mpr h0
      refine ⟨?_, ?_, ?_, ?_⟩
      · simp [BPCIE_NR_UARTS, uart_init_loop, h0]
      · apply hall
        · simp [BPCIE_NR_UARTS, uart_init_loop, h0, bpcie_uart_remove, uart_remove_loop, hn0]
        · simp [BPCIE_NR_UARTS, uart_init_loop, h0, bpcie_uart_remove, uart_remove_loop, hn0]
      · simp [BPCIE_NR_UARTS, uart_init_loop, h0, bpcie_uart_remove, uart_remove_loop, hn0,
          released, acquired, ProbeCall.acquires, ProbeCall.releases]
      · simp [BPCIE_NR_UARTS, uart_init_loop, h0, bpcie_uart_remove, uart_remove_loop, hn0,
          released, ProbeCall.releases]
    · have hp0 : 0 ≤ env.serial8250_register_8250_port 0 := not_lt.mp h0
      by_cases h1 : env.serial8250_register_8250_port 1 < 0
      · right
        have hn1 : ¬ 0 ≤ env.serial8250_register_8250_port 1 := not_le.mpr h1
        refine ⟨?_, ?_, ?_, ?_⟩
        · simp [BPCIE_NR_UARTS, uart_init_loop, h0, h1]
        · apply hall
          · simp [BPCIE_NR_UARTS, uart_init_loop, h0, h1, bpcie_uart_remove,
              uart_remove_loop, hn1, hp0]
          · simp [BPCIE_NR_UARTS, uart_init_loop, h0, h1, bpcie_uart_remove,
              uart_remove_loop, hn1, hp0]
        · simp [BPCIE_NR_UARTS, uart_init_loop, h0, h1, bpcie_uart_remove,
            uart_remove_loop, hn1, hp0, released, acquired, ProbeCall.acquires,
            ProbeCall.releases]
        · simp [BPCIE_NR_UARTS, uart_init_loop, h0, h1, bpcie_uart_remove,
            uart_remove_loop, hn1, hp0, released, ProbeCall.releases]
      · left
        have hp1 : 0 ≤ env.serial8250_register_8250_port 1 := not_lt.mp h1
        refine ⟨?_, ?_, ?_, ?_⟩
        · simp [BPCIE_NR_UARTS, uart_init_loop, h0, h1]
        · apply hall
          · simp [BPCIE_NR_UARTS, uart_init_loop, h0, h1, hp0]
          · simp [BPCIE_NR_UARTS, uart_init_loop, h0, h1, hp1]
        · simp [BPCIE_NR_UARTS, uart_init_loop, h0, h1, acquired, ProbeCall.acquires,
            hp0, hp1]
        · simp [BPCIE_NR_UARTS, uart_init_loop, h0, h1, released, ProbeCall.releases]
  · unfold bpcie_uart_remove
    rw [hab, uart_remove_loop_pair]
    by_cases ha : 0 ≤ a <;> by_cases hb : 0 ≤ b <;>
      simp [ha, hb, released, ProbeCall.releases, BPCIE_NR_UARTS, List.range_succ,
        List.filter]
  · unfold bpcie_uart_remove
    rw [hab, uart_remove_loop_pair]
    apply hall <;> simp
  · unfold bpcie_uart_remove
    simp only []
    rw [hab, uart_remove_loop_pair, uart_remove_loop_pair]
    by_cases ha : 0 ≤ a <;> by_cases hb : 0 ≤ b <;> simp [ha, hb]
  · unfold bpcie_uart_remove
    simp only []
    rw [hab, uart_remove_loop_pair, uart_remove_loop_pair]
    by_cases ha : 0 ≤ a <;> by_cases hb : 0 ≤ b <;> simp [ha, hb]

/-- Witness for C27: when the second port fails to register with `-28` after the first
got line 4, `bpcie_uart_init` returns `-EIO = -5`, unregisters port 0 once and leaves
the lines `[-1, -28]`. -/
theorem uart_init_all_or_nothing_witness :
    sample_sc.serial_line.length = BPCIE_NR_UARTS ∧
    (bpcie_uart_init sample_probe_defs sample_env_uart1_fails sample_sc 0).ret = -5 ∧
    (bpcie_uart_init sample_probe_defs sample_env_uart1_fails sample_sc 0).sc.serial_line
      = [-1, -28] ∧
    released (bpcie_uart_init sample_probe_defs sample_env_uart1_fails sample_sc 0).trace
      = [Resource.uart_port 0] ∧
    (bpcie_uart_remove (bpcie_uart_remove sample_sc 0).sc 0).trace = [] :=
  ⟨rfl, by decide, by decide, by decide,
    (uart_init_all_or_nothing sample_probe_defs sample_env_uart1_fails sample_sc 0 rfl).2.2.2.1⟩

/-! ## The glue function after a failed probe and after removal -/

/-- When the glue device found by `pci_get_slot` has no driver data, or no device is
found, `bpcie_assign_irqs` returns `-ENODEV`. -/
theorem assign_irqs_without_drvdata (K : KernelDefs) (pci_get_slot : Nat → Option PciDev)
    (alloc : Int → Int → Int) (flags : Nat) (dev : PciDev) (nvec : Int)
    (h : (pci_get_slot ((u32 dev.devfn &&& 0xFFFFFFF8) ||| BAIKAL_FUNC_ID_PCIE)).map
      PciDev.drvdata ≠ some true) :
    (bpcie_assign_irqs K pci_get_slot alloc flags dev nvec).1 = -(K.ENODEV : Int) := by
  simp only [bpcie_assign_irqs]
  generalize pci_get_slot ((u32 dev.devfn &&& 0xFFFFFFF8) ||| BAIKAL_FUNC_ID_PCIE) = sc
    at h ⊢
  cases sc with
  | none => simp [bpcie_is_compatible_device, assign_fail_tail]
  | some sc =>
      have hd : sc.drvdata = false := by
        cases hs : sc.drvdata with
        | false => rfl
        | true => exact absurd (by simp [hs]) h
      by_cases hc : bpcie_is_compatible_device K (some sc) = true
      · simp [hc, hd, assign_fail_tail]
      · simp [hc, assign_fail_tail]

/-- A failing `bpcie_probe` frees the device state and leaves `bpcie_initialized` as
it was. -/
theorem probe_failure_state (K : ProbeDefs) (env : BpcieEnv) (flags : Nat)
    (initialized : Bool) (h : (bpcie_probe K env flags initialized).ret ≠ 0) :
    (bpcie_probe K env flags initialized).sc = none ∧
    (bpcie_probe K env flags initialized).bpcie_initialized = initialized := by
  simp only [bpcie_probe] at h ⊢
  split_ifs at h ⊢ <;> first | exact ⟨rfl, rfl⟩ | exact absurd rfl h

/-- C21, counterexample: the probe of the glue function succeeds and sets
`bpcie_initialized`; after `bpcie_remove` has freed the device state the flag is
still true. -/
theorem removed_glue_keeps_initialized :
    (bpcie_probe sample_probe_defs sample_bpcie_env 0 false).ret = 0 ∧
    (bpcie_probe sample_probe_defs sample_bpcie_env 0 false).bpcie_initialized = true ∧
    (bpcie_probe sample_probe_defs sample_bpcie_env 0 false).sc.map
      (fun sc =>
        (bpcie_remove sample_bpcie_env sc
          (bpcie_probe sample_probe_defs sample_bpcie_env 0 false).flags
          (bpcie_probe sample_probe_defs sample_bpcie_env 0 false).bpcie_initialized).sc)
      = some none ∧
    (bpcie_probe sample_probe_defs sample_bpcie_env 0 false).sc.map
      (fun sc =>
        (bpcie_remove sample_bpcie_env sc
          (bpcie_probe sample_probe_defs sample_bpcie_env 0 false).flags
          (bpcie_probe sample_probe_defs sample_bpcie_env 0 false).bpcie_initialized
          ).bpcie_initialized)
      = some true := by
  decide

/-- C21, amended: when `bpcie_probe` fails at any step, the device state is freed and
`bpcie_initialized` keeps the value it had before the call; when the lookup of the
driver state of the glue device yields nothing, `bpcie_assign_irqs` returns `-ENODEV`;
`bpcie_remove` frees the device state and leaves `bpcie_initialized` as it was. -/
theorem glue_absent_after_failure (K : ProbeDefs) (env : BpcieEnv) (flags : Nat)
    (initialized : Bool) :
    ((bpcie_probe K env flags initialized).ret ≠ 0 →
      (bpcie_probe K env flags initialized).sc = none ∧
      (bpcie_probe K env flags initialized).bpcie_initialized = initialized) ∧
    (∀ (slot : Nat) (alloc : Int → Int → Int) (dev : PciDev) (nvec : Int),
      (bpcie_assign_irqs K.toKernelDefs
        (fun _ => some (glue_pci_dev K.toKernelDefs slot false)) alloc flags dev nvec).1
        = -(K.ENODEV : Int)) ∧
    (∀ sc : BpcieDev,
      (bpcie_remove env sc flags initialized).sc = none ∧
      (bpcie_remove env sc flags initialized).bpcie_initialized = initialized) := by
  refine ⟨probe_failure_state K env flags initialized, ?_, ?_⟩
  · intro slot alloc dev nvec
    apply assign_irqs_without_drvdata
    simp [glue_pci_dev]
  · intro sc
    exact ⟨rfl, rfl⟩

/-- Witness for the amended C21: with BAR2 failing to map, the probe returns
`-EIO = -5`, frees the state and leaves `bpcie_initialized` false. -/
theorem glue_absent_after_failure_witness :
    (bpcie_probe sample_probe_defs sample_env_no_bar2 0 false).ret = -5 ∧
    (bpcie_probe sample_probe_defs sample_env_no_bar2 0 false).sc = none ∧
    (bpcie_probe sample_probe_defs sample_env_no_bar2 0 false).bpcie_initialized = false :=
  ⟨by decide,
    ((glue_absent_after_failure sample_probe_defs sample_env_no_bar2 0 false).1
      (by decide)).1,
    ((glue_absent_after_failure sample_probe_defs sample_env_no_bar2 0 false).1
      (by decide)).2⟩

/-! ## Failing returns of `xhci_aeolia_probe` -/

/-- C25: after three IRQs are assigned, a failure of `pci_set_dma_mask` makes
`xhci_aeolia_probe` return `-ENODEV = -19` with no call of `apcie_free_irqs` and none
of `pci_disable_device`; and on a device that is not the Aeolia xHCI, after
`ahci_init_one` returned 0, a failure of the host controller of index 2 is followed by
`xhci_aeolia_remove_one` for the indexes 1 and 0, `apcie_free_irqs`, the release of the
state and `pci_disable_device`, with no call that removes what `ahci_init_one` set
up. -/
theorem xhci_probe_failure_paths :
    xhci_aeolia_probe sample_probe_defs sample_xhci_env_dma_fails =
      (-19, [XhciCall.apcie_status, XhciCall.pci_enable_device, XhciCall.devm_kzalloc,
        XhciCall.pci_set_drvdata false, XhciCall.apcie_assign_irqs 3,
        XhciCall.pci_set_dma_mask]) ∧
    XhciCall.apcie_free_irqs 3 ∉
      (xhci_aeolia_probe sample_probe_defs sample_xhci_env_dma_fails).2 ∧
    XhciCall.pci_disable_device ∉
      (xhci_aeolia_probe sample_probe_defs sample_xhci_env_dma_fails).2 ∧
    xhci_aeolia_probe sample_probe_defs sample_xhci_env_hcd2_fails =
      (-12, [XhciCall.apcie_status, XhciCall.pci_enable_device, XhciCall.devm_kzalloc,
        XhciCall.pci_set_drvdata false, XhciCall.apcie_assign_irqs 3,
        XhciCall.pci_set_dma_mask, XhciCall.pci_set_consistent_dma_mask,
        XhciCall.ahci_init_one,
        XhciCall.xhci_aeolia_probe_one 0, XhciCall.xhci_aeolia_probe_one 2,
        XhciCall.xhci_aeolia_remove_one 1, XhciCall.xhci_aeolia_remove_one 0,
        XhciCall.apcie_free_irqs 3, XhciCall.devm_kfree, XhciCall.pci_set_drvdata true,
        XhciCall.pci_disable_device]) := by
  decide

/-! ## Host controllers dereferenced by suspend and resume -/

/-- In the forward loops no `NULL` host controller is dereferenced when the indexes 0
and 2 hold one and index 1 holds one on the Aeolia xHCI. -/
theorem pm_forward_loops_safe (K : ProbeDefs) (env : PmEnv)
    (h0 : env.hcd 0 = true) (h2 : env.hcd 2 = true)
    (h1 : env.device = K.PCI_DEVICE_ID_SONY_AEOLIA_XHCI → env.hcd 1 = true) :
    null_derefs (xhci_suspend_loop K env NR_DEVICES 0).1 = [] ∧
    null_derefs (xhci_aeolia_resume K env).2 = [] := by
  by_cases hd : env.device = K.PCI_DEVICE_ID_SONY_AEOLIA_XHCI
  · have h1t := h1 hd
    constructor
    · simp only [NR_DEVICES, xhci_suspend_loop, hd, ne_eq, not_true_eq_false, false_and,
        if_false, h0, h1t, h2]
      split_ifs <;> rfl
    · simp only [xhci_aeolia_resume, NR_DEVICES, xhci_resume_loop, hd, ne_eq,
        not_true_eq_false, false_and, if_false, h0, h1t, h2]
      split_ifs <;> rfl
  · constructor
    · simp only [NR_DEVICES, xhci_suspend_loop, hd, ne_eq, not_false_eq_true, true_and,
        h0, h2]
      split_ifs <;> rfl
    · simp only [xhci_aeolia_resume, NR_DEVICES, xhci_resume_loop, hd, ne_eq,
        not_false_eq_true, true_and, h0, h2]
      split_ifs <;> rfl

/-- C26: on a device that is not the Aeolia xHCI, in the state left by a successful
probe (`hcd[0]` and `hcd[2]` set, `hcd[1]` `NULL`), when suspending index 2 fails,
`xhci_aeolia_suspend` returns the error and its rollback loop dereferences
`axhci->hcd[1]`, which is `NULL`. -/
theorem suspend_rollback_dereferences_null :
    (xhci_aeolia_probe sample_probe_defs sample_xhci_env_ok).1 = 0 ∧
    sample_pm_env.device ≠ sample_probe_defs.PCI_DEVICE_ID_SONY_AEOLIA_XHCI ∧
    sample_pm_env.hcd 0 = true ∧ sample_pm_env.hcd 1 = false ∧
    sample_pm_env.hcd 2 = true ∧
    xhci_aeolia_suspend sample_probe_defs sample_pm_env =
      (-16, [PmCall.hcd_to_xhci 0 true, PmCall.xhci_suspend 0 0,
        PmCall.hcd_to_xhci 2 true, PmCall.xhci_suspend 2 (-16),
        PmCall.hcd_to_xhci 1 false, PmCall.xhci_resume 1 0,
        PmCall.hcd_to_xhci 0 true, PmCall.xhci_resume 0 0]) ∧
    null_derefs (xhci_aeolia_suspend sample_probe_defs sample_pm_env).2 = [1] := by
  decide

end PS4
